import Mathlib

/-!
Output surfaces and the presentation queue of libvdpau-sunxi.

A shallow embedding of `surface_output.c` and `presentation_queue.c`.

* C objects reached through handles live in a `Registry`; a function that
  mutates a context through its pointer returns the updated registry.
* `uint32_t` / `uint8_t` values are natural numbers reduced modulo `2^32` /
  `2^8` wherever the C expression is evaluated in that type; `int` values are
  integers wrapped to 32 bits.
* A pixel buffer is a list of 32-bit cells.  Reading or writing a cell outside
  the list is a memory fault, rendered as `none`.
* `float` fields are only ever copied or set to the constants `0` and `1.0`;
  they are carried as rationals.
* Calls into Xlib and the display driver are recorded as a list of events.
-/

namespace VdpauSunxi

/-! ## Machine integers -/

/-- Value of a natural number stored in a `uint32_t`. -/
def u32 (n : Nat) : Nat := n % 4294967296

/-- Value of a natural number stored in a `uint8_t`. -/
def u8 (n : Nat) : Nat := n % 256

/-- Subtraction `a - b` evaluated in `uint32_t`. -/
def sub32 (a b : Nat) : Nat := (a % 4294967296 + 4294967296 - b % 4294967296) % 4294967296

/-- Conversion of an integer to `uint32_t`. -/
def toU32 (z : Int) : Nat := (z % 4294967296).toNat

/-- Conversion of an integer to a two-complement 32-bit `int`: the 32-bit
pattern of `z` read as a signed number, in `[-2^31, 2^31)`. -/
def toS32 (z : Int) : Int :=
  if toU32 z < 2147483648 then (toU32 z : Int) else (toU32 z : Int) - 4294967296

/-! ## Constants of the VDPAU API (`vdpau.h`) and of `vdpau_private.h` -/

inductive VdpStatus where
  | VDP_STATUS_OK
  | VDP_STATUS_INVALID_POINTER
  | VDP_STATUS_INVALID_HANDLE
  | VDP_STATUS_INVALID_SIZE
  | VDP_STATUS_RESOURCES
  | VDP_STATUS_ERROR
deriving DecidableEq

open VdpStatus

def VDP_INVALID_HANDLE : Nat := 0xffffffff

def VDP_RGBA_FORMAT_B8G8R8A8 : Nat := 0

def VDP_INDEXED_FORMAT_I8A8 : Nat := 3

def VDP_COLOR_TABLE_FORMAT_B8G8R8X8 : Nat := 0

def VDP_YCBCR_FORMAT_NV12 : Nat := 0

def VDP_YCBCR_FORMAT_YV12 : Nat := 1

def VDP_YCBCR_FORMAT_UYVY : Nat := 2

def VDP_YCBCR_FORMAT_YUYV : Nat := 3

/-- Modelled from the spec: the tag of the internal macroblocked format,
declared in `vdpau_private.h`; any value distinct from the four public formats
handled by the switch in `vdp_presentation_queue_display` behaves the same. -/
def INTERNAL_YCBCR_FORMAT : Nat := 0xffff

/-! ## Data model (`vdpau_private.h`, fields as used by the two source files) -/

structure VdpRect where
  x0 : Nat
  y0 : Nat
  x1 : Nat
  y1 : Nat
deriving DecidableEq

structure VdpColor where
  red : Rat
  green : Rat
  blue : Rat
  alpha : Rat
deriving DecidableEq

/-- Modelled from the spec: the device context of `vdpau_private.h`; only the
X display and screen are read here. -/
structure device_ctx_t where
  display : Nat
  screen : Nat
deriving DecidableEq

/-- Modelled from the spec: the decoded-video buffer descriptor of
`vdpau_private.h` (virtual base address, luma plane size, source colour
format, width, height). -/
structure video_surface_ctx_t where
  data : Nat
  plane_size : Nat
  source_format : Nat
  width : Nat
  height : Nat
deriving DecidableEq

/-- Modelled from the spec: the output surface context of `vdpau_private.h`,
with the fields the two source files read or write.  `data` is the owned pixel
buffer (`none` for a null pointer), `vs` the attached video buffer. -/
structure output_surface_ctx_t where
  device : device_ctx_t
  rgba_format : Nat
  width : Nat
  height : Nat
  data : Option (List Nat)
  data_clear : Nat
  vs : Option video_surface_ctx_t
  video_src_rect : VdpRect
  video_dst_rect : VdpRect
  csc_change : Nat
  brightness : Rat
  contrast : Rat
  saturation : Rat
  hue : Rat
deriving DecidableEq

/-- Modelled from the spec: the presentation target context of
`vdpau_private.h` (window, device descriptor, hardware layer). -/
structure queue_target_ctx_t where
  drawable : Nat
  fd : Int
  layer : Nat
deriving DecidableEq

/-- Modelled from the spec: the presentation queue context of
`vdpau_private.h`.  The target and device pointers are carried as the contexts
they point to; neither context is written after its creation. -/
structure queue_ctx_t where
  target : queue_target_ctx_t
  device : device_ctx_t
  background : VdpColor
deriving DecidableEq

/-- The context objects a handle can stand for. -/
inductive Object where
  | device (d : device_ctx_t)
  | output_surface (s : output_surface_ctx_t)
  | queue_target (t : queue_target_ctx_t)
  | queue (q : queue_ctx_t)
deriving DecidableEq

/-- The handle table: slot `i` holds the object of handle `i + 1`. -/
abbrev Registry := List (Option Object)

/-- Modelled from the spec: the lookup of the handle registry (`handle_get`, not
part of the two source files).  It maps an opaque integer handle to its
context object; the invalid-handle sentinel and unknown handles give nothing. -/
def handle_get (ht : Registry) (handle : Nat) : Option Object :=
  if handle = VDP_INVALID_HANDLE ∨ handle = 0 then none
  else ht.getD (handle - 1) none

/-- Modelled from the spec: the allocation of the handle registry (`handle_create`,
not part of the two source files).  A new object gets a fresh handle; `ok`
says whether the table could take one more entry (the C function returns `-1`
otherwise, here `none`). -/
def handle_create (ht : Registry) (ok : Bool) (data : Object) : Option (Registry × Nat) :=
  if ok = true ∧ ht.length + 1 < VDP_INVALID_HANDLE then some (ht ++ [some data], ht.length + 1)
  else none

/-- Write through the pointer that `handle_get` returned for `handle`. -/
def handle_set (ht : Registry) (handle : Nat) (data : Object) : Registry :=
  ht.set (handle - 1) (some data)

/-! ## Pixel memory -/

/-- Read of cell `i`. -/
def load (buf : List Nat) (i : Nat) : Option Nat := buf[i]?

/-- Write of cell `i`. -/
def store (buf : List Nat) (i v : Nat) : Option (List Nat) :=
  if i < buf.length then some (buf.set i v) else none

/-- C `calloc(nmemb, size)` of a buffer of 32-bit cells; `ok` says whether the
allocator succeeds. -/
def calloc_cells (ok : Bool) (nmemb size : Nat) : Option (List Nat) :=
  if ok then some (List.replicate (nmemb * size / 4) 0) else none

/-- The statement `if (!out->data) out->data = calloc(out->width * 4,
out->height);` shared by the two writers: the buffer afterwards, `none` when
it is still a null pointer. -/
def alloc_if_absent (ok : Bool) (data : Option (List Nat)) (width height : Nat) :
    Option (List Nat) :=
  match data with
  | none => calloc_cells ok (u32 (width * 4)) height
  | some buf => some buf

/-- C `memset(buf, 0, nbytes)` on a buffer of 32-bit cells. -/
def memset_zero (buf : List Nat) (nbytes : Nat) : Option (List Nat) :=
  if nbytes / 4 ≤ buf.length then some (List.replicate (nbytes / 4) 0 ++ buf.drop (nbytes / 4))
  else none

/-- The statement `if (out->data && out->data_clear) memset(out->data, 0,
out->width * 4 * out->height);`: the buffer pointer afterwards, or `none` for
a fault of the `memset`. -/
def clear_if_flagged (data : Option (List Nat)) (data_clear width height : Nat) :
    Option (Option (List Nat)) :=
  match data with
  | some buf =>
    if data_clear ≠ 0 then
      match memset_zero buf (u32 (width * 4 * height)) with
      | none => none
      | some buf1 => some (some buf1)
    else some (some buf)
  | none => some none

/-- C `memcpy(dst + d, src + s, 4 * n)` on buffers of 32-bit cells, cell by
cell; `src` is the content of the source buffer when the call starts. -/
def memcpy_cells (src : List Nat) : Nat → List Nat → Nat → Nat → Option (List Nat)
  | 0, dst, _, _ => some dst
  | n + 1, dst, d, s =>
    match load src s with
    | none => none
    | some v =>
      match store dst d v with
      | none => none
      | some dst1 => memcpy_cells src n dst1 (d + 1) (s + 1)

/-! ## `surface_output.c` -/

/-- The context returned by `calloc(1, sizeof(output_surface_ctx_t))`. -/
def output_surface_calloc : output_surface_ctx_t :=
  { device := ⟨0, 0⟩, rgba_format := 0, width := 0, height := 0, data := none,
    data_clear := 0, vs := none, video_src_rect := ⟨0, 0, 0, 0⟩,
    video_dst_rect := ⟨0, 0, 0, 0⟩, csc_change := 0, brightness := 0,
    contrast := 0, saturation := 0, hue := 0 }

/-- `vdp_output_surface_create`.  `surface` says whether the out-pointer is
non-null; the third component is the handle written through it. -/
def vdp_output_surface_create (ht : Registry) (calloc_ok handle_ok : Bool)
    (device rgba_format width height : Nat) (surface : Bool) :
    VdpStatus × Registry × Option Nat :=
  if surface = false then (VDP_STATUS_INVALID_POINTER, ht, none)
  else if width = 0 ∨ height = 0 ∨ width ≥ 16384 ∨ height ≥ 16384 then
    (VDP_STATUS_INVALID_SIZE, ht, none)
  else
    match handle_get ht device with
    | some (Object.device dev) =>
      if calloc_ok = false then (VDP_STATUS_RESOURCES, ht, none)
      else
        let out : output_surface_ctx_t :=
          { output_surface_calloc with
            width := width, height := height, rgba_format := rgba_format,
            contrast := 1, saturation := 1, device := dev, data := none }
        match handle_create ht handle_ok (Object.output_surface out) with
        | none => (VDP_STATUS_RESOURCES, ht, none)
        | some (ht1, handle) => (VDP_STATUS_OK, ht1, some handle)
    | _ => (VDP_STATUS_INVALID_HANDLE, ht, none)

/-- `vdp_output_surface_get_parameters`.  The three booleans say which
out-pointers are non-null; a value is written only through a non-null one. -/
def vdp_output_surface_get_parameters (ht : Registry) (surface : Nat)
    (rgba_format width height : Bool) : VdpStatus × Option Nat × Option Nat × Option Nat :=
  match handle_get ht surface with
  | some (Object.output_surface out) =>
    (VDP_STATUS_OK,
      if rgba_format then some out.rgba_format else none,
      if width then some out.width else none,
      if height then some out.height else none)
  | _ => (VDP_STATUS_INVALID_HANDLE, none, none, none)

/-- `valid_rect`. -/
def valid_rect (rect : VdpRect) (out : output_surface_ctx_t) : Bool :=
  decide (rect.x0 ≤ rect.x1) && decide (rect.y0 ≤ rect.y1) &&
    decide (rect.x1 < out.width) && decide (rect.y1 < out.height)

/-- Inner loop of `vdp_output_surface_put_bits_indexed`: `n` iterations left,
`d` and `s` are the offsets of `dst` and `src`.  Returns the two offsets and
the buffer after the loop. -/
def put_bits_row (palette src : Nat → Nat) : Nat → Nat → Nat → List Nat → Option (Nat × Nat × List Nat)
  | 0, d, s, buf => some (d, s, buf)
  | n + 1, d, s, buf =>
    -- *dst = palette[*src++] & 0x00ffffffu;
    match store buf d (u32 (palette (u8 (src s))) &&& 0x00ffffff) with
    | none => none
    | some buf1 =>
      -- *dst++ |= *src++ << 24;
      match load buf1 d with
      | none => none
      | some v =>
        match store buf1 d (v ||| u32 (u8 (src (s + 1)) <<< 24)) with
        | none => none
        | some buf2 => put_bits_row palette src n (d + 1) (s + 2) buf2

/-- Outer loop of `vdp_output_surface_put_bits_indexed`: `n` rows left. -/
def put_bits_rows (palette src : Nat → Nat) (w dst_step src_step : Nat) :
    Nat → Nat → Nat → List Nat → Option (List Nat)
  | 0, _, _, buf => some buf
  | n + 1, d, s, buf =>
    match put_bits_row palette src w d s buf with
    | none => none
    | some (d1, s1, buf1) =>
      put_bits_rows palette src w dst_step src_step n (d1 + dst_step) (s1 + src_step) buf1

/-- `vdp_output_surface_put_bits_indexed`.  `source_data` is the memory at
`source_data[0]` (byte at each offset), `source_pitch` is `source_pitch[0]`,
`color_table` the memory at `color_table` (32-bit cell at each index). -/
def vdp_output_surface_put_bits_indexed (ht : Registry) (calloc_ok : Bool) (surface : Nat)
    (source_indexed_format : Nat) (source_data : Nat → Nat) (source_pitch : Nat)
    (destination_rect : VdpRect) (color_table_format : Nat) (color_table : Nat → Nat) :
    Option (VdpStatus × Registry) :=
  match handle_get ht surface with
  | some (Object.output_surface out) =>
    if valid_rect destination_rect out = false then some (VDP_STATUS_INVALID_SIZE, ht)
    else if out.rgba_format ≠ VDP_RGBA_FORMAT_B8G8R8A8 ∨
        source_indexed_format ≠ VDP_INDEXED_FORMAT_I8A8 ∨
        color_table_format ≠ VDP_COLOR_TABLE_FORMAT_B8G8R8X8 then
      some (VDP_STATUS_OK, ht)
    else
      match alloc_if_absent calloc_ok out.data out.width out.height with
      | none => some (VDP_STATUS_RESOURCES, ht)
      | some dst_buf =>
        let out1 : output_surface_ctx_t := { out with data := some dst_buf }
        let w := sub32 destination_rect.x1 destination_rect.x0
        let h := sub32 destination_rect.y1 destination_rect.y0
        let dst := u32 (destination_rect.y0 * out.width + destination_rect.x0)
        let dst_step := sub32 out.width w
        if source_pitch < u32 (2 * w) then
          some (VDP_STATUS_INVALID_SIZE, handle_set ht surface (Object.output_surface out1))
        else
          let src_step := sub32 source_pitch (u32 (2 * w))
          match put_bits_rows color_table source_data w dst_step src_step h dst 0 dst_buf with
          | none => none
          | some buf =>
            some (VDP_STATUS_OK,
              handle_set ht surface
                (Object.output_surface { out1 with data := some buf, data_clear := 0 }))
  | _ => some (VDP_STATUS_INVALID_HANDLE, ht)

/-- Copy loop of `vdp_output_surface_render_output_surface`: `n` rows left,
`d` and `s` are the offsets of `dst` and `src`.  With `same` the source
surface is the destination surface, so `src` reads the buffer being written. -/
def render_rows (w in_width out_width : Nat) (same : Bool) (src_buf : List Nat) :
    Nat → Nat → Nat → List Nat → Option (List Nat)
  | 0, _, _, dst_buf => some dst_buf
  | n + 1, d, s, dst_buf =>
    match memcpy_cells (if same then dst_buf else src_buf) (u32 (w * 4) / 4) dst_buf d s with
    | none => none
    | some dst1 => render_rows w in_width out_width same src_buf n (d + out_width) (s + in_width) dst1

/-- `vdp_output_surface_render_output_surface`.  A rectangle argument is
`none` for a null pointer; `colors`, `blend_state` and `flags` are not read. -/
def vdp_output_surface_render_output_surface (ht : Registry) (calloc_ok : Bool)
    (destination_surface : Nat) (destination_rect : Option VdpRect) (source_surface : Nat)
    (source_rect : Option VdpRect) (_colors : Option VdpColor) (_blend_state : Option Nat)
    (_flags : Nat) : Option (VdpStatus × Registry) :=
  match handle_get ht destination_surface with
  | some (Object.output_surface out) =>
    if source_surface = VDP_INVALID_HANDLE then
      match out.data with
      | some _ =>
        some (VDP_STATUS_OK,
          handle_set ht destination_surface (Object.output_surface { out with data := none }))
      | none => some (VDP_STATUS_OK, ht)
    else
      match handle_get ht source_surface with
      | some (Object.output_surface inp) =>
        match source_rect with
        | none => none
        | some srect =>
          if valid_rect srect inp = false then some (VDP_STATUS_INVALID_SIZE, ht)
          else
            match destination_rect with
            | none => none
            | some drect =>
              if valid_rect drect out = false then some (VDP_STATUS_INVALID_SIZE, ht)
              else
                if out.rgba_format ≠ VDP_RGBA_FORMAT_B8G8R8A8 then some (VDP_STATUS_OK, ht)
                else
                  match inp.data with
                  | none => some (VDP_STATUS_OK, ht)
                  | some in_buf =>
                    match clear_if_flagged out.data out.data_clear out.width out.height with
                    | none => none
                    | some data1 =>
                      match alloc_if_absent calloc_ok data1 out.width out.height with
                      | none => some (VDP_STATUS_RESOURCES, ht)
                      | some dst_buf =>
                        let w0 := sub32 drect.x1 drect.x0
                        let ws := sub32 srect.x1 srect.x0
                        let w := if ws < w0 then ws else w0
                        let h0 := sub32 drect.y1 drect.y0
                        let hs := sub32 srect.y1 srect.y0
                        let h := if hs < h0 then hs else h0
                        let dst := u32 (drect.y0 * out.width + drect.x0)
                        let src := u32 (srect.y0 * inp.width + srect.x0)
                        let same := decide (source_surface = destination_surface)
                        match render_rows w inp.width out.width same in_buf h dst src dst_buf with
                        | none => none
                        | some buf =>
                          some (VDP_STATUS_OK,
                            handle_set ht destination_surface
                              (Object.output_surface
                                { out with data := some buf, data_clear := 0 }))
      | _ => some (VDP_STATUS_INVALID_HANDLE, ht)
  | _ => some (VDP_STATUS_INVALID_HANDLE, ht)

/-! ## Display driver interface (`sunxi_disp_ioctl.h`) and Xlib calls -/

inductive disp_layer_work_mode_t where
  | DISP_LAYER_WORK_MODE_NORMAL
  | DISP_LAYER_WORK_MODE_SCALER
deriving DecidableEq

inductive disp_pixel_fmt_t where
  | DISP_FORMAT_YUV422
  | DISP_FORMAT_YUV420
deriving DecidableEq

inductive disp_pixel_seq_t where
  | DISP_SEQ_UYVY
  | DISP_SEQ_YUYV
  | DISP_SEQ_UVUV
deriving DecidableEq

inductive disp_pixel_mod_t where
  | DISP_MOD_INTERLEAVED
  | DISP_MOD_NON_MB_PLANAR
  | DISP_MOD_NON_MB_UV_COMBINED
  | DISP_MOD_MB_UV_COMBINED
deriving DecidableEq

inductive disp_cs_mode_t where
  | DISP_BT601
  | DISP_BT709
deriving DecidableEq

/-- Modelled from the spec: the window rectangle of the driver, a signed origin and
an unsigned extent, all 32 bits wide. -/
structure disp_rect_t where
  x : Int
  y : Int
  width : Nat
  height : Nat
deriving DecidableEq

/-- Modelled from the spec: the frame buffer part of the layer parameter
block, with the fields `vdp_presentation_queue_display` assigns. -/
structure disp_fb_t where
  addr0 : Nat
  addr1 : Nat
  addr2 : Nat
  size_width : Nat
  size_height : Nat
  format : disp_pixel_fmt_t
  seq : disp_pixel_seq_t
  mode : disp_pixel_mod_t
  br_swap : Nat
  cs_mode : disp_cs_mode_t
deriving DecidableEq

/-- Modelled from the spec: the layer parameter block, with the fields
`vdp_presentation_queue_display` assigns; every other field stays zero. -/
structure disp_layer_info_t where
  mode : disp_layer_work_mode_t
  pipe : Nat
  ck_enable : Nat
  src_win : disp_rect_t
  scn_win : disp_rect_t
  fb : disp_fb_t
deriving DecidableEq

inductive disp_cmd_t where
  | DISP_CMD_LAYER_SET_PARA
  | DISP_CMD_LAYER_BOTTOM
  | DISP_CMD_LAYER_OPEN
  | DISP_CMD_LAYER_ENHANCE_OFF
  | DISP_CMD_LAYER_SET_BRIGHT
  | DISP_CMD_LAYER_SET_CONTRAST
  | DISP_CMD_LAYER_SET_SATURATION
  | DISP_CMD_LAYER_SET_HUE
  | DISP_CMD_LAYER_ENHANCE_ON
deriving DecidableEq

/-- The third word of the argument block: the address of the layer parameter
block (carried as the block it points to) or a scalar. -/
inductive ioctl_word where
  | layer_info (info : disp_layer_info_t)
  | scalar (v : Nat)
deriving DecidableEq

/-- The argument block `uint32_t args[4]`. -/
structure ioctl_args where
  a0 : Nat
  a1 : Nat
  a2 : ioctl_word
  a3 : Nat
deriving DecidableEq

/-- A call into Xlib or into the display driver. -/
inductive Event where
  | XTranslateCoordinates (display drawable screen : Nat)
  | XClearWindow (display drawable : Nat)
  | XCreateGC (display drawable : Nat)
  | XSetForeground (display v : Nat)
  | XDrawPoint (display drawable x y : Nat)
  | XFreeGC (display : Nat)
  | XFlush (display : Nat)
  | ioctl (fd : Int) (cmd : disp_cmd_t) (args : ioctl_args)
deriving DecidableEq

/-- The driver calls of a trace, in order. -/
def ioctl_calls : List Event → List (disp_cmd_t × ioctl_args)
  | [] => []
  | Event.ioctl _ cmd args :: rest => (cmd, args) :: ioctl_calls rest
  | _ :: rest => ioctl_calls rest

/-! ## `presentation_queue.c` -/

/-- `vdp_presentation_queue_create`.  `presentation_queue` says whether the
out-pointer is non-null; the third component is the handle written through
it. -/
def vdp_presentation_queue_create (ht : Registry) (calloc_ok handle_ok : Bool)
    (device presentation_queue_target : Nat) (presentation_queue : Bool) :
    VdpStatus × Registry × Option Nat :=
  if presentation_queue = false then (VDP_STATUS_INVALID_POINTER, ht, none)
  else
    match handle_get ht device with
    | some (Object.device dev) =>
      match handle_get ht presentation_queue_target with
      | some (Object.queue_target qt) =>
        if calloc_ok = false then (VDP_STATUS_RESOURCES, ht, none)
        else
          -- calloc(1, sizeof(queue_ctx_t)), then q->target = qt; q->device = dev;
          let q : queue_ctx_t := { target := qt, device := dev, background := ⟨0, 0, 0, 0⟩ }
          match handle_create ht handle_ok (Object.queue q) with
          | none => (VDP_STATUS_RESOURCES, ht, none)
          | some (ht1, handle) => (VDP_STATUS_OK, ht1, some handle)
      | _ => (VDP_STATUS_INVALID_HANDLE, ht, none)
    | _ => (VDP_STATUS_INVALID_HANDLE, ht, none)

/-- `vdp_presentation_queue_set_background_color`; `background_color` is
`none` for a null pointer. -/
def vdp_presentation_queue_set_background_color (ht : Registry) (presentation_queue : Nat)
    (background_color : Option VdpColor) : VdpStatus × Registry :=
  match background_color with
  | none => (VDP_STATUS_INVALID_POINTER, ht)
  | some c =>
    match handle_get ht presentation_queue with
    | some (Object.queue q) =>
      (VDP_STATUS_OK,
        handle_set ht presentation_queue
          (Object.queue
            { q with background :=
              { red := c.red, green := c.green, blue := c.blue, alpha := c.alpha } }))
    | _ => (VDP_STATUS_INVALID_HANDLE, ht)

/-- `vdp_presentation_queue_get_background_color`.  `background_color` says
whether the out-pointer is non-null; the second component is the colour
written through it. -/
def vdp_presentation_queue_get_background_color (ht : Registry) (presentation_queue : Nat)
    (background_color : Bool) : VdpStatus × Option VdpColor :=
  if background_color = false then (VDP_STATUS_INVALID_POINTER, none)
  else
    match handle_get ht presentation_queue with
    | some (Object.queue q) =>
      (VDP_STATUS_OK,
        some { red := q.background.red, green := q.background.green,
               blue := q.background.blue, alpha := q.background.alpha })
    | _ => (VDP_STATUS_INVALID_HANDLE, none)

/-- Inner pixel loop of `vdp_presentation_queue_display`: `n` columns left,
`x` the column, `p` the offset of `src`. -/
def display_row (dev : device_ctx_t) (drawable : Nat) (buf : List Nat) (y : Nat) :
    Nat → Nat → Nat → Option (Nat × List Event)
  | 0, _, p => some (p, [])
  | n + 1, x, p =>
    match load buf p with
    | none => none
    | some v =>
      match display_row dev drawable buf y n (x + 1) (p + 1) with
      | none => none
      | some (p1, evs) =>
        some (p1,
          (if v >>> 24 > 0x80 then
            [Event.XSetForeground dev.display v, Event.XDrawPoint dev.display drawable x y]
          else []) ++ evs)

/-- Outer pixel loop of `vdp_presentation_queue_display`: `n` rows left, `y`
the row, `p` the offset of `src`. -/
def display_rows (dev : device_ctx_t) (drawable : Nat) (buf : List Nat) (width : Nat) :
    Nat → Nat → Nat → Option (List Event)
  | 0, _, _ => some []
  | n + 1, y, p =>
    match display_row dev drawable buf y width 0 p with
    | none => none
    | some (p1, evs) =>
      match display_rows dev drawable buf width n (y + 1) p1 with
      | none => none
      | some rest => some (evs ++ rest)

/-- The block `if (os->data && !os->data_clear) { ... }` of
`vdp_presentation_queue_display`: the Xlib calls that draw the opaque
pixels of the surface into the window, `none` for a read outside the buffer. -/
def display_overlay (q : queue_ctx_t) (os : output_surface_ctx_t) : Option (List Event) :=
  match os.data with
  | some buf =>
    if os.data_clear = 0 then
      match display_rows q.device q.target.drawable buf os.width os.height 0 0 with
      | none => none
      | some evs =>
        some ([Event.XCreateGC q.device.display q.target.drawable] ++ evs ++
          [Event.XFreeGC q.device.display, Event.XFlush q.device.display])
    else some []
  | none => some []

/-- The `switch (os->vs->source_format)` of `vdp_presentation_queue_display`
with the two defaults set before it: the frame buffer mode, format and
channel order. -/
def display_fb_format (source_format : Nat) :
    disp_pixel_mod_t × disp_pixel_fmt_t × disp_pixel_seq_t :=
  if source_format = VDP_YCBCR_FORMAT_YUYV then
    (disp_pixel_mod_t.DISP_MOD_INTERLEAVED, disp_pixel_fmt_t.DISP_FORMAT_YUV422,
      disp_pixel_seq_t.DISP_SEQ_YUYV)
  else if source_format = VDP_YCBCR_FORMAT_UYVY then
    (disp_pixel_mod_t.DISP_MOD_INTERLEAVED, disp_pixel_fmt_t.DISP_FORMAT_YUV422,
      disp_pixel_seq_t.DISP_SEQ_UYVY)
  else if source_format = VDP_YCBCR_FORMAT_NV12 then
    (disp_pixel_mod_t.DISP_MOD_NON_MB_UV_COMBINED, disp_pixel_fmt_t.DISP_FORMAT_YUV420,
      disp_pixel_seq_t.DISP_SEQ_UVUV)
  else if source_format = VDP_YCBCR_FORMAT_YV12 then
    (disp_pixel_mod_t.DISP_MOD_NON_MB_PLANAR, disp_pixel_fmt_t.DISP_FORMAT_YUV420,
      disp_pixel_seq_t.DISP_SEQ_UVUV)
  else
    (disp_pixel_mod_t.DISP_MOD_MB_UV_COMBINED, disp_pixel_fmt_t.DISP_FORMAT_YUV420,
      disp_pixel_seq_t.DISP_SEQ_UVUV)

/-- The block `if (layer_info.scn_win.y < 0) { ... }` of
`vdp_presentation_queue_display`: the source and the screen window after it. -/
def clip_negative_y (src_win scn_win : disp_rect_t) : disp_rect_t × disp_rect_t :=
  if scn_win.y < 0 then
    let cutoff : Int := toS32 (-scn_win.y)
    ({ src_win with y := toS32 (src_win.y + cutoff), height := toU32 (src_win.height - cutoff) },
     { scn_win with y := 0, height := toU32 (scn_win.height - cutoff) })
  else (src_win, scn_win)

/-- The frame buffer description that `vdp_presentation_queue_display` puts
into the layer parameter block (`layer_info.fb`). -/
def display_fb (ve_virt2phys : Nat → Nat) (vs : video_surface_ctx_t) : disp_fb_t :=
  { addr0 := u32 (ve_virt2phys vs.data + 0x40000000),
    addr1 := u32 (ve_virt2phys (vs.data + vs.plane_size) + 0x40000000),
    addr2 := u32 (ve_virt2phys (vs.data + vs.plane_size + vs.plane_size / 4) + 0x40000000),
    size_width := vs.width, size_height := vs.height,
    format := (display_fb_format vs.source_format).2.1,
    seq := (display_fb_format vs.source_format).2.2,
    mode := (display_fb_format vs.source_format).1, br_swap := 0,
    cs_mode := disp_cs_mode_t.DISP_BT601 }

/-- The source window as assigned from `os->video_src_rect`, before the clip. -/
def display_src_win (os : output_surface_ctx_t) : disp_rect_t :=
  { x := toS32 os.video_src_rect.x0, y := toS32 os.video_src_rect.y0,
    width := sub32 os.video_src_rect.x1 os.video_src_rect.x0,
    height := sub32 os.video_src_rect.y1 os.video_src_rect.y0 }

/-- The screen window as assigned from the window origin `(x, y)` and
`os->video_dst_rect`, before the clip.  The sums are formed in `uint32_t` and
stored into signed fields. -/
def display_scn_win (os : output_surface_ctx_t) (x y : Int) : disp_rect_t :=
  { x := toS32 (toU32 (x + os.video_dst_rect.x0)), y := toS32 (toU32 (y + os.video_dst_rect.y0)),
    width := sub32 os.video_dst_rect.x1 os.video_dst_rect.x0,
    height := sub32 os.video_dst_rect.y1 os.video_dst_rect.y0 }

/-- The layer parameter block that `vdp_presentation_queue_display` builds
for a surface with video buffer `vs`, the window origin being `(x, y)`. -/
def display_layer_info (ve_virt2phys : Nat → Nat) (os : output_surface_ctx_t)
    (vs : video_surface_ctx_t) (x y : Int) : disp_layer_info_t :=
  { mode := disp_layer_work_mode_t.DISP_LAYER_WORK_MODE_SCALER, pipe := 1, ck_enable := 1,
    src_win := (clip_negative_y (display_src_win os) (display_scn_win os x y)).1,
    scn_win := (clip_negative_y (display_src_win os) (display_scn_win os x y)).2,
    fb := display_fb ve_virt2phys vs }

/-- `vdp_presentation_queue_display`.  `win_x`, `win_y` are the coordinates
that `XTranslateCoordinates` returns, `ve_virt2phys` is the address
translation of `ve.h`, and `float_to_u32` the conversion of a floating point
value to `uint32_t` (the rounding of the float operations themselves is not
rendered).  The result is the status, the registry and the calls issued. -/
def vdp_presentation_queue_display (ht : Registry) (ve_virt2phys : Nat → Nat)
    (float_to_u32 : Rat → Nat) (win_x win_y : Int) (presentation_queue surface : Nat)
    (_clip_width _clip_height _earliest_presentation_time : Nat) :
    Option (VdpStatus × Registry × List Event) :=
  match handle_get ht presentation_queue with
  | some (Object.queue q) =>
    match handle_get ht surface with
    | some (Object.output_surface os) =>
      match os.vs with
      | none => some (VDP_STATUS_OK, ht, [])
      | some vs =>
        let dpy := q.device.display
        let head : List Event :=
          [Event.XTranslateCoordinates dpy q.target.drawable q.device.screen,
           Event.XClearWindow dpy q.target.drawable]
        match display_overlay q os with
        | none => none
        | some drawn =>
          let layer_info := display_layer_info ve_virt2phys os vs win_x win_y
          let args : ioctl_args :=
            { a0 := 0, a1 := q.target.layer, a2 := ioctl_word.layer_info layer_info, a3 := 0 }
          let fd := q.target.fd
          let layer : List Event :=
            [Event.ioctl fd disp_cmd_t.DISP_CMD_LAYER_SET_PARA args,
             Event.ioctl fd disp_cmd_t.DISP_CMD_LAYER_BOTTOM args,
             Event.ioctl fd disp_cmd_t.DISP_CMD_LAYER_OPEN args]
          if os.csc_change ≠ 0 then
            let bright := { args with a2 := ioctl_word.scalar (float_to_u32 (0xff * os.brightness + 0x20)) }
            let contrast := { args with a2 := ioctl_word.scalar (float_to_u32 (0x20 * os.contrast)) }
            let saturation := { args with a2 := ioctl_word.scalar (float_to_u32 (0x20 * os.saturation)) }
            let hue := { args with a2 := ioctl_word.scalar (float_to_u32 ((32 / (314 / 100)) * os.hue + 0x20)) }
            some (VDP_STATUS_OK,
              handle_set ht surface (Object.output_surface { os with csc_change := 0 }),
              head ++ drawn ++ layer ++
                [Event.ioctl fd disp_cmd_t.DISP_CMD_LAYER_ENHANCE_OFF args,
                 Event.ioctl fd disp_cmd_t.DISP_CMD_LAYER_SET_BRIGHT bright,
                 Event.ioctl fd disp_cmd_t.DISP_CMD_LAYER_SET_CONTRAST contrast,
                 Event.ioctl fd disp_cmd_t.DISP_CMD_LAYER_SET_SATURATION saturation,
                 Event.ioctl fd disp_cmd_t.DISP_CMD_LAYER_SET_HUE hue,
                 Event.ioctl fd disp_cmd_t.DISP_CMD_LAYER_ENHANCE_ON hue])
          else some (VDP_STATUS_OK, ht, head ++ drawn ++ layer)
    | _ => some (VDP_STATUS_INVALID_HANDLE, ht, [])
  | _ => some (VDP_STATUS_INVALID_HANDLE, ht, [])

/-! ## Definitions used to state the properties -/

/-- The invariant of a registered output surface: both dimensions lie
strictly between 0 and 16384 (checked by `vdp_output_surface_create`), and a
pixel buffer, when present, has exactly `width * height` cells (the size both
writers allocate). -/
def surface_ok (out : output_surface_ctx_t) : Prop :=
  0 < out.width ∧ out.width < 16384 ∧ 0 < out.height ∧ out.height < 16384 ∧
    ∀ buf, out.data = some buf → buf.length = out.width * out.height

/-- The 32-bit value that the indexed copy gives a destination cell whose
index/alpha pair starts at byte `t` of the source: the table entry of the
index byte, masked to its low 24 bits, with the alpha byte in bits 24 to 31. -/
def indexed_pixel (palette src : Nat → Nat) (t : Nat) : Nat :=
  (u32 (palette (u8 (src t))) &&& 0x00ffffff) ||| u32 (u8 (src (t + 1)) <<< 24)

/-- The driver calls that open the layer. -/
def layer_calls (q : queue_ctx_t) (info : disp_layer_info_t) : List (disp_cmd_t × ioctl_args) :=
  [(disp_cmd_t.DISP_CMD_LAYER_SET_PARA, ⟨0, q.target.layer, ioctl_word.layer_info info, 0⟩),
   (disp_cmd_t.DISP_CMD_LAYER_BOTTOM, ⟨0, q.target.layer, ioctl_word.layer_info info, 0⟩),
   (disp_cmd_t.DISP_CMD_LAYER_OPEN, ⟨0, q.target.layer, ioctl_word.layer_info info, 0⟩)]

/-- The driver calls that push the colour enhancement values of a surface. -/
def enhance_calls (f2u : Rat → Nat) (q : queue_ctx_t) (os : output_surface_ctx_t)
    (info : disp_layer_info_t) : List (disp_cmd_t × ioctl_args) :=
  [(disp_cmd_t.DISP_CMD_LAYER_ENHANCE_OFF, ⟨0, q.target.layer, ioctl_word.layer_info info, 0⟩),
   (disp_cmd_t.DISP_CMD_LAYER_SET_BRIGHT,
     ⟨0, q.target.layer, ioctl_word.scalar (f2u (0xff * os.brightness + 0x20)), 0⟩),
   (disp_cmd_t.DISP_CMD_LAYER_SET_CONTRAST,
     ⟨0, q.target.layer, ioctl_word.scalar (f2u (0x20 * os.contrast)), 0⟩),
   (disp_cmd_t.DISP_CMD_LAYER_SET_SATURATION,
     ⟨0, q.target.layer, ioctl_word.scalar (f2u (0x20 * os.saturation)), 0⟩),
   (disp_cmd_t.DISP_CMD_LAYER_SET_HUE,
     ⟨0, q.target.layer, ioctl_word.scalar (f2u ((32 / (314 / 100)) * os.hue + 0x20)), 0⟩),
   (disp_cmd_t.DISP_CMD_LAYER_ENHANCE_ON,
     ⟨0, q.target.layer, ioctl_word.scalar (f2u ((32 / (314 / 100)) * os.hue + 0x20)), 0⟩)]

/-! ## Sample objects used to instantiate the theorems -/

def sample_device : device_ctx_t := ⟨7, 0⟩

def sample_target : queue_target_ctx_t := ⟨42, 3, 100⟩

def sample_queue : queue_ctx_t := ⟨sample_target, sample_device, ⟨0, 0, 0, 0⟩⟩

def sample_video : video_surface_ctx_t :=
  { data := 4096, plane_size := 1024, source_format := VDP_YCBCR_FORMAT_YUYV, width := 32,
    height := 32 }

/-- A freshly created 3 by 3 surface. -/
def sample_surface : output_surface_ctx_t :=
  { output_surface_calloc with
    device := sample_device, width := 3, height := 3,
    rgba_format := VDP_RGBA_FORMAT_B8G8R8A8, contrast := 1, saturation := 1 }

/-- A 3 by 3 surface with a populated buffer. -/
def sample_source_surface : output_surface_ctx_t :=
  { sample_surface with data := some [1, 2, 3, 4, 5, 6, 7, 8, 9] }

/-- A 3 by 3 surface with a video buffer and changed enhancement values. -/
def sample_video_surface : output_surface_ctx_t :=
  { sample_surface with
    vs := some sample_video, video_src_rect := ⟨0, 5, 64, 105⟩,
    video_dst_rect := ⟨0, 0, 100, 100⟩, csc_change := 1 }

/-- Handles 1 to 6: device, target, queue and the three surfaces. -/
def sample_registry : Registry :=
  [some (Object.device sample_device), some (Object.queue_target sample_target),
   some (Object.queue sample_queue), some (Object.output_surface sample_surface),
   some (Object.output_surface sample_source_surface),
   some (Object.output_surface sample_video_surface)]

/-- Two rows of two index/alpha pairs, eight bytes apart. -/
def sample_indexed_source : Nat → Nat :=
  fun k => [0, 255, 1, 255, 0, 0, 0, 0, 2, 255, 3, 255].getD k 0

def sample_color_table : Nat → Nat :=
  fun k => [0xFF0000, 0x00FF00, 0x0000FF, 0xFFFFFF].getD k 0

/-! ## Lemmas and theorems -/

theorem store_eq_some {buf : List Nat} {i : Nat} (v : Nat) (h : i < buf.length) :
    store buf i v = some (buf.set i v) := by
  simp [store, h]

theorem put_bits_row_spec (palette src : Nat → Nat) :
    ∀ (n d s : Nat) (buf : List Nat), d + n ≤ buf.length →
      ∃ buf1, put_bits_row palette src n d s buf = some (d + n, s + 2 * n, buf1) ∧
        buf1.length = buf.length ∧
        ∀ k, buf1[k]? =
          if d ≤ k ∧ k < d + n then some (indexed_pixel palette src (s + 2 * (k - d)))
          else buf[k]? := by
  intro n
  induction n with
  | zero =>
    intro d s buf _
    refine ⟨buf, by simp [put_bits_row], rfl, ?_⟩
    intro k
    have c : ¬ (d ≤ k ∧ k < d + 0) := by omega
    rw [if_neg c]
  | succ n ih =>
    intro d s buf hlen
    have hd : d < buf.length := by omega
    obtain ⟨buf1, h1, h2, h3⟩ := ih (d + 1) (s + 2)
      ((buf.set d (u32 (palette (u8 (src s))) &&& 0x00ffffff)).set d
        (indexed_pixel palette src s)) (by simp; omega)
    refine ⟨buf1, ?_, by simpa using h2, ?_⟩
    · have e1 : d + 1 + n = d + (n + 1) := by omega
      have e2 : s + 2 + 2 * n = s + 2 * (n + 1) := by omega
      simp only [put_bits_row, store, load, hd, if_true, List.length_set,
        List.getElem?_set_self hd]
      rw [← e1, ← e2]
      exact h1
    · intro k
      rw [h3 k]
      by_cases hk : k = d
      · subst hk
        have c1 : ¬ (k + 1 ≤ k ∧ k < k + 1 + n) := by omega
        have c2 : k ≤ k ∧ k < k + (n + 1) := by omega
        simp [c1, c2, hd]
      · by_cases hin : d + 1 ≤ k ∧ k < d + 1 + n
        · have c2 : d ≤ k ∧ k < d + (n + 1) := by omega
          have e : s + 2 + 2 * (k - (d + 1)) = s + 2 * (k - d) := by omega
          simp [hin, c2, e]
        · have c2 : ¬ (d ≤ k ∧ k < d + (n + 1)) := by omega
          have hne : d ≠ k := fun h => hk h.symm
          simp [hin, c2, List.getElem?_set_ne hne]

theorem put_bits_rows_spec (palette src : Nat → Nat) (w W P : Nat) (hw : w ≤ W) (hp : 2 * w ≤ P) :
    ∀ (n d s : Nat) (buf : List Nat), d + n * W ≤ buf.length →
      ∃ buf1, put_bits_rows palette src w (W - w) (P - 2 * w) n d s buf = some buf1 ∧
        buf1.length = buf.length ∧
        (∀ i, i < n → ∀ j, j < w →
          buf1[d + i * W + j]? = some (indexed_pixel palette src (s + i * P + 2 * j))) ∧
        (∀ k, (∀ i, i < n → ∀ j, j < w → k ≠ d + i * W + j) → buf1[k]? = buf[k]?) := by
  intro n
  induction n with
  | zero =>
    intro d s buf _
    exact ⟨buf, by simp [put_bits_rows], rfl, by intro i hi; omega, by intro k _; rfl⟩
  | succ n ih =>
    intro d s buf hlen
    have hmul : (n + 1) * W = n * W + W := Nat.succ_mul n W
    obtain ⟨bufr, r1, r2, r3⟩ := put_bits_row_spec palette src w d s buf (by omega)
    obtain ⟨buf1, h1, h2, h3, h4⟩ := ih (d + W) (s + P) bufr (by rw [r2]; omega)
    refine ⟨buf1, ?_, by rw [h2, r2], ?_, ?_⟩
    · have e1 : d + w + (W - w) = d + W := by omega
      have e2 : s + 2 * w + (P - 2 * w) = s + P := by omega
      simp only [put_bits_rows, r1, e1, e2]
      exact h1
    · intro i hi j hj
      cases i with
      | zero =>
        have hne : ∀ i, i < n → ∀ jj, jj < w → d + 0 * W + j ≠ d + W + i * W + jj := by
          intro i _ jj _; omega
        rw [h4 _ hne, r3]
        have c : d ≤ d + 0 * W + j ∧ d + 0 * W + j < d + w := by omega
        have e : s + 2 * (d + 0 * W + j - d) = s + 0 * P + 2 * j := by omega
        simp only [c, and_self, if_true, e]
      | succ i =>
        have hmi : (i + 1) * W = i * W + W := Nat.succ_mul i W
        have hpi : (i + 1) * P = i * P + P := Nat.succ_mul i P
        have e1 : d + (i + 1) * W + j = d + W + i * W + j := by omega
        have e2 : s + (i + 1) * P + 2 * j = s + P + i * P + 2 * j := by omega
        rw [e1, e2]
        exact h3 i (by omega) j hj
    · intro k hk
      have hk1 : ∀ i, i < n → ∀ j, j < w → k ≠ d + W + i * W + j := by
        intro i hi j hj
        have hmi : (i + 1) * W = i * W + W := Nat.succ_mul i W
        have := hk (i + 1) (by omega) j hj
        omega
      rw [h4 k hk1, r3]
      have c : ¬ (d ≤ k ∧ k < d + w) := by
        intro hc
        have := hk 0 (by omega) (k - d) (by omega)
        omega
      simp only [c, if_false]

theorem u32_eq {n : Nat} (h : n < 4294967296) : u32 n = n := by
  unfold u32
  exact Nat.mod_eq_of_lt h

theorem sub32_eq {a b : Nat} (hb : b ≤ a) (ha : a < 4294967296) : sub32 a b = a - b := by
  unfold sub32
  rw [Nat.mod_eq_of_lt ha, Nat.mod_eq_of_lt (by omega : b < 4294967296)]
  omega

theorem calloc_cells_eq {W H : Nat} (hW : W < 16384) :
    calloc_cells true (u32 (W * 4)) H = some (List.replicate (W * H) 0) := by
  have e : u32 (W * 4) = W * 4 := u32_eq (by omega)
  have e2 : W * 4 * H / 4 = W * H := by
    rw [Nat.mul_right_comm, Nat.mul_div_cancel _ (by decide : 0 < 4)]
  simp [calloc_cells, e, e2]

theorem mul_lt_16384 {a b : Nat} (ha : a < 16384) (hb : b < 16384) : a * b ≤ 16383 * 16383 :=
  Nat.mul_le_mul (by omega) (by omega)

theorem rect_offset_lt {W y0 x0 : Nat} (hW : W < 16384) (hy : y0 < 16384) (hx : x0 < 16384) :
    y0 * W + x0 < 4294967296 := by
  have := mul_lt_16384 hy hW
  omega

theorem rect_rows_fit {W H x0 y0 y1 : Nat} (hy : y0 ≤ y1) (hy1 : y1 < H) (hx : x0 < W) :
    y0 * W + x0 + (y1 - y0) * W ≤ W * H := by
  have e : y0 * W + (y1 - y0) * W = y1 * W := by
    rw [← Nat.add_mul]; congr 1; omega
  have h2 : (y1 + 1) * W ≤ H * W := Nat.mul_le_mul_right W (by omega)
  rw [Nat.succ_mul] at h2
  rw [Nat.mul_comm W H]
  omega

/-- The supported path of `vdp_output_surface_put_bits_indexed` (surface
B8G8R8A8, source I8A8, table B8G8R8X8) when the buffer is present or its lazy
allocation is granted: the value returned, with the registry written through
`handle_set`, and the content of the new buffer. -/
theorem put_bits_indexed_copy_run (ht : Registry) (surface : Nat) (out : output_surface_ctx_t)
    (calloc_ok : Bool) (src : Nat → Nat) (pitch : Nat) (rect : VdpRect) (palette : Nat → Nat)
    (hreg : handle_get ht surface = some (Object.output_surface out))
    (hok : surface_ok out)
    (hfmt : out.rgba_format = VDP_RGBA_FORMAT_B8G8R8A8)
    (halloc : out.data = none → calloc_ok = true)
    (hrect : rect.x0 ≤ rect.x1 ∧ rect.y0 ≤ rect.y1 ∧ rect.x1 < out.width ∧ rect.y1 < out.height)
    (hp32 : pitch < 4294967296)
    (hpitch : 2 * (rect.x1 - rect.x0) ≤ pitch) :
    ∃ buf : List Nat,
      vdp_output_surface_put_bits_indexed ht calloc_ok surface VDP_INDEXED_FORMAT_I8A8 src pitch
          rect VDP_COLOR_TABLE_FORMAT_B8G8R8X8 palette
        = some (VDP_STATUS_OK,
            handle_set ht surface
              (Object.output_surface { out with data := some buf, data_clear := 0 })) ∧
      buf.length = out.width * out.height ∧
      (∀ i, i < rect.y1 - rect.y0 → ∀ j, j < rect.x1 - rect.x0 →
        buf[(rect.y0 + i) * out.width + (rect.x0 + j)]? =
          some ((u32 (palette (u8 (src (i * pitch + 2 * j)))) &&& 0x00FFFFFF) |||
            u32 (u8 (src (i * pitch + 2 * j + 1)) <<< 24))) ∧
      (∀ k, (∀ i, i < rect.y1 - rect.y0 → ∀ j, j < rect.x1 - rect.x0 →
          k ≠ (rect.y0 + i) * out.width + (rect.x0 + j)) →
        buf[k]? = (out.data.getD (List.replicate (out.width * out.height) 0))[k]?) := by
  obtain ⟨hx, hy, hx1, hy1⟩ := hrect
  obtain ⟨hW0, hW, hH0, hH, hdata⟩ := hok
  have hvalid : valid_rect rect out = true := by simp [valid_rect, hx, hy, hx1, hy1]
  have ew : sub32 rect.x1 rect.x0 = rect.x1 - rect.x0 := sub32_eq hx (by omega)
  have eh : sub32 rect.y1 rect.y0 = rect.y1 - rect.y0 := sub32_eq hy (by omega)
  have ed : u32 (rect.y0 * out.width + rect.x0) = rect.y0 * out.width + rect.x0 :=
    u32_eq (rect_offset_lt hW (by omega) (by omega))
  have es : sub32 out.width (rect.x1 - rect.x0) = out.width - (rect.x1 - rect.x0) :=
    sub32_eq (by omega) (by omega)
  have e2w : u32 (2 * (rect.x1 - rect.x0)) = 2 * (rect.x1 - rect.x0) := u32_eq (by omega)
  have ep : sub32 pitch (2 * (rect.x1 - rect.x0)) = pitch - 2 * (rect.x1 - rect.x0) :=
    sub32_eq hpitch hp32
  -- the buffer the loops start from
  have hstart : ∃ b0 : List Nat,
      alloc_if_absent calloc_ok out.data out.width out.height = some b0 ∧
      b0 = out.data.getD (List.replicate (out.width * out.height) 0) ∧
      b0.length = out.width * out.height := by
    cases hd : out.data with
    | none =>
      rw [halloc hd]
      exact ⟨_, calloc_cells_eq hW, by simp, by simp⟩
    | some b => exact ⟨b, rfl, by simp, hdata b hd⟩
  obtain ⟨b0, hb0, hprev, hlen0⟩ := hstart
  obtain ⟨buf, h1, h2, h3, h4⟩ :=
    put_bits_rows_spec palette src (rect.x1 - rect.x0) out.width pitch (by omega) hpitch
      (rect.y1 - rect.y0) (rect.y0 * out.width + rect.x0) 0 b0
      (by rw [hlen0]; exact rect_rows_fit hy hy1 (by omega))
  refine ⟨buf, ?_, by rw [h2, hlen0], ?_, ?_⟩
  · unfold vdp_output_surface_put_bits_indexed
    simp only [hreg, hvalid, hfmt, ew, eh, ed, es, e2w, ep]
    simp only [Nat.not_lt.mpr hpitch, ne_eq, not_true_eq_false, or_self, if_false,
      Bool.true_eq_false]
    rw [hb0]
    simp only [h1]
  · intro i hi j hj
    have e : (rect.y0 + i) * out.width + (rect.x0 + j)
        = rect.y0 * out.width + rect.x0 + i * out.width + j := by
      rw [Nat.add_mul]; omega
    rw [e, h3 i hi j hj]
    simp [indexed_pixel, Nat.add_assoc]
  · intro k hk
    rw [← hprev]
    apply h4
    intro i hi j hj
    have e : (rect.y0 + i) * out.width + (rect.x0 + j)
        = rect.y0 * out.width + rect.x0 + i * out.width + j := by
      rw [Nat.add_mul]; omega
    rw [← e]
    exact hk i hi j hj

theorem memcpy_cells_spec (src : List Nat) :
    ∀ (n : Nat) (dst : List Nat) (d s : Nat), s + n ≤ src.length → d + n ≤ dst.length →
      ∃ dst1, memcpy_cells src n dst d s = some dst1 ∧ dst1.length = dst.length ∧
        ∀ k, dst1[k]? = if d ≤ k ∧ k < d + n then src[s + (k - d)]? else dst[k]? := by
  intro n
  induction n with
  | zero =>
    intro dst d s _ _
    refine ⟨dst, by simp [memcpy_cells], rfl, ?_⟩
    intro k
    have c : ¬ (d ≤ k ∧ k < d + 0) := by omega
    rw [if_neg c]
  | succ n ih =>
    intro dst d s hs hd
    have hs1 : s < src.length := by omega
    have hd1 : d < dst.length := by omega
    obtain ⟨dst1, h1, h2, h3⟩ := ih (dst.set d src[s]) (d + 1) (s + 1) (by omega)
      (by simp; omega)
    refine ⟨dst1, ?_, by simpa using h2, ?_⟩
    · simp only [memcpy_cells, load, store, List.getElem?_eq_getElem hs1, hd1, if_true]
      exact h1
    · intro k
      rw [h3 k]
      by_cases hk : k = d
      · subst hk
        have c1 : ¬ (k + 1 ≤ k ∧ k < k + 1 + n) := by omega
        have c2 : k ≤ k ∧ k < k + (n + 1) := by omega
        simp [c1, c2, hd1, List.getElem?_eq_getElem hs1]
      · by_cases hin : d + 1 ≤ k ∧ k < d + 1 + n
        · have c2 : d ≤ k ∧ k < d + (n + 1) := by omega
          have e : s + 1 + (k - (d + 1)) = s + (k - d) := by omega
          simp [hin, c2, e]
        · have c2 : ¬ (d ≤ k ∧ k < d + (n + 1)) := by omega
          have hne : d ≠ k := fun h => hk h.symm
          simp [hin, c2, List.getElem?_set_ne hne]

theorem render_rows_spec (w Wi Wo : Nat) (src : List Nat) (hwo : w ≤ Wo) (hwi : w ≤ Wi)
    (hw : w < 16384) :
    ∀ (n d s : Nat) (dst : List Nat), d + n * Wo ≤ dst.length → s + n * Wi ≤ src.length →
      ∃ buf1, render_rows w Wi Wo false src n d s dst = some buf1 ∧
        buf1.length = dst.length ∧
        (∀ i, i < n → ∀ j, j < w → buf1[d + i * Wo + j]? = src[s + i * Wi + j]?) ∧
        (∀ k, (∀ i, i < n → ∀ j, j < w → k ≠ d + i * Wo + j) → buf1[k]? = dst[k]?) := by
  have ecells : u32 (w * 4) / 4 = w := by
    rw [u32_eq (by omega)]; omega
  intro n
  induction n with
  | zero =>
    intro d s dst _ _
    exact ⟨dst, by simp [render_rows], rfl, by intro i hi; omega, by intro k _; rfl⟩
  | succ n ih =>
    intro d s dst hd hs
    have hmo : (n + 1) * Wo = n * Wo + Wo := Nat.succ_mul n Wo
    have hmi : (n + 1) * Wi = n * Wi + Wi := Nat.succ_mul n Wi
    obtain ⟨bufr, r1, r2, r3⟩ := memcpy_cells_spec src w dst d s (by omega) (by omega)
    obtain ⟨buf1, h1, h2, h3, h4⟩ := ih (d + Wo) (s + Wi) bufr (by rw [r2]; omega) (by omega)
    refine ⟨buf1, ?_, by rw [h2, r2], ?_, ?_⟩
    · simp only [render_rows, ecells, Bool.false_eq_true, if_false, r1]
      exact h1
    · intro i hi j hj
      cases i with
      | zero =>
        have hne : ∀ i, i < n → ∀ jj, jj < w → d + 0 * Wo + j ≠ d + Wo + i * Wo + jj := by
          intro i _ jj _; omega
        rw [h4 _ hne, r3]
        have c : d ≤ d + 0 * Wo + j ∧ d + 0 * Wo + j < d + w := by omega
        have e : s + (d + 0 * Wo + j - d) = s + 0 * Wi + j := by omega
        simp only [c, and_self, if_true, e]
      | succ i =>
        have hmi1 : (i + 1) * Wo = i * Wo + Wo := Nat.succ_mul i Wo
        have hpi1 : (i + 1) * Wi = i * Wi + Wi := Nat.succ_mul i Wi
        have e1 : d + (i + 1) * Wo + j = d + Wo + i * Wo + j := by omega
        have e2 : s + (i + 1) * Wi + j = s + Wi + i * Wi + j := by omega
        rw [e1, e2]
        exact h3 i (by omega) j hj
    · intro k hk
      have hk1 : ∀ i, i < n → ∀ j, j < w → k ≠ d + Wo + i * Wo + j := by
        intro i hi j hj
        have hmi1 : (i + 1) * Wo = i * Wo + Wo := Nat.succ_mul i Wo
        have := hk (i + 1) (by omega) j hj
        omega
      rw [h4 k hk1, r3]
      have c : ¬ (d ≤ k ∧ k < d + w) := by
        intro hc
        have := hk 0 (by omega) (k - d) (by omega)
        omega
      simp only [c, if_false]

theorem handle_get_ne_invalid {ht : Registry} {h : Nat} {o : Object}
    (hg : handle_get ht h = some o) : h ≠ VDP_INVALID_HANDLE := by
  intro e
  simp [handle_get, e] at hg

theorem memset_zero_all {buf : List Nat} {W H : Nat} (hW : W < 16384) (hH : H < 16384)
    (hlen : buf.length = W * H) :
    memset_zero buf (u32 (W * 4 * H)) = some (List.replicate (W * H) 0) := by
  have hb := mul_lt_16384 hW hH
  have e1 : W * 4 * H = W * H * 4 := Nat.mul_right_comm W 4 H
  have e : u32 (W * 4 * H) / 4 = W * H := by
    rw [u32_eq (by omega), e1, Nat.mul_div_cancel _ (by decide : 0 < 4)]
  unfold memset_zero
  rw [e, if_pos (by omega), List.drop_of_length_le (by omega)]
  simp

theorem clear_then_alloc {out : output_surface_ctx_t} {calloc_ok : Bool} (hok : surface_ok out)
    (halloc : out.data = none → calloc_ok = true) :
    ∃ (d1 : Option (List Nat)) (b0 : List Nat),
      clear_if_flagged out.data out.data_clear out.width out.height = some d1 ∧
      alloc_if_absent calloc_ok d1 out.width out.height = some b0 ∧
      b0 = (if out.data_clear = 0 then
              out.data.getD (List.replicate (out.width * out.height) 0)
            else List.replicate (out.width * out.height) 0) ∧
      b0.length = out.width * out.height := by
  obtain ⟨_, hW, _, hH, hdata⟩ := hok
  cases hd : out.data with
  | none =>
    refine ⟨none, List.replicate (out.width * out.height) 0, rfl, ?_, ?_, by simp⟩
    · rw [halloc hd]; exact calloc_cells_eq hW
    · simp
  | some b =>
    by_cases hc : out.data_clear = 0
    · exact ⟨some b, b, by simp [clear_if_flagged, hc], rfl, by simp [hc], hdata b hd⟩
    · refine ⟨some (List.replicate (out.width * out.height) 0), _, ?_, rfl, by simp [hc],
        by simp⟩
      simp [clear_if_flagged, hc, memset_zero_all hW hH (hdata b hd)]

/-- The copy of `vdp_output_surface_render_output_surface` between two
distinct registered surfaces (destination B8G8R8A8, populated source, valid
rectangles) when the destination buffer is present or its lazy allocation is
granted: the value returned, with the registry written through `handle_set`,
and the content of the new buffer. -/
theorem render_output_surface_copy_run (ht : Registry) (calloc_ok : Bool) (dst_handle src_handle : Nat)
    (out inp : output_surface_ctx_t) (drect srect : VdpRect) (in_buf : List Nat)
    (colors : Option VdpColor) (blend_state : Option Nat) (flags : Nat)
    (hdst : handle_get ht dst_handle = some (Object.output_surface out))
    (hsrc : handle_get ht src_handle = some (Object.output_surface inp))
    (hne : src_handle ≠ dst_handle)
    (hok_out : surface_ok out) (hok_in : surface_ok inp)
    (hfmt : out.rgba_format = VDP_RGBA_FORMAT_B8G8R8A8)
    (hin : inp.data = some in_buf)
    (halloc : out.data = none → calloc_ok = true)
    (hdrect : drect.x0 ≤ drect.x1 ∧ drect.y0 ≤ drect.y1 ∧ drect.x1 < out.width ∧
      drect.y1 < out.height)
    (hsrect : srect.x0 ≤ srect.x1 ∧ srect.y0 ≤ srect.y1 ∧ srect.x1 < inp.width ∧
      srect.y1 < inp.height) :
    ∃ buf : List Nat,
      vdp_output_surface_render_output_surface ht calloc_ok dst_handle (some drect) src_handle
          (some srect) colors blend_state flags
        = some (VDP_STATUS_OK,
            handle_set ht dst_handle
              (Object.output_surface { out with data := some buf, data_clear := 0 })) ∧
      buf.length = out.width * out.height ∧
      (∀ i, i < min (drect.y1 - drect.y0) (srect.y1 - srect.y0) →
        ∀ j, j < min (drect.x1 - drect.x0) (srect.x1 - srect.x0) →
          ∃ v, in_buf[(srect.y0 + i) * inp.width + (srect.x0 + j)]? = some v ∧
            buf[(drect.y0 + i) * out.width + (drect.x0 + j)]? = some v) ∧
      (∀ k, (∀ i, i < min (drect.y1 - drect.y0) (srect.y1 - srect.y0) →
          ∀ j, j < min (drect.x1 - drect.x0) (srect.x1 - srect.x0) →
            k ≠ (drect.y0 + i) * out.width + (drect.x0 + j)) →
        buf[k]? =
          (if out.data_clear = 0 then out.data.getD (List.replicate (out.width * out.height) 0)
           else List.replicate (out.width * out.height) 0)[k]?) := by
  obtain ⟨hdx, hdy, hdx1, hdy1⟩ := hdrect
  obtain ⟨hsx, hsy, hsx1, hsy1⟩ := hsrect
  obtain ⟨d1, b0, hclr, hal, hprev, hlen0⟩ := clear_then_alloc hok_out halloc
  obtain ⟨hW0, hW, hH0, hH, hdata⟩ := hok_out
  obtain ⟨hWi0, hWi, hHi0, hHi, hdatai⟩ := hok_in
  have hleni : in_buf.length = inp.width * inp.height := hdatai in_buf hin
  have hvd : valid_rect drect out = true := by simp [valid_rect, hdx, hdy, hdx1, hdy1]
  have hvs : valid_rect srect inp = true := by simp [valid_rect, hsx, hsy, hsx1, hsy1]
  have ew0 : sub32 drect.x1 drect.x0 = drect.x1 - drect.x0 := sub32_eq hdx (by omega)
  have ews : sub32 srect.x1 srect.x0 = srect.x1 - srect.x0 := sub32_eq hsx (by omega)
  have eh0 : sub32 drect.y1 drect.y0 = drect.y1 - drect.y0 := sub32_eq hdy (by omega)
  have ehs : sub32 srect.y1 srect.y0 = srect.y1 - srect.y0 := sub32_eq hsy (by omega)
  have ed : u32 (drect.y0 * out.width + drect.x0) = drect.y0 * out.width + drect.x0 :=
    u32_eq (rect_offset_lt hW (by omega) (by omega))
  have es : u32 (srect.y0 * inp.width + srect.x0) = srect.y0 * inp.width + srect.x0 :=
    u32_eq (rect_offset_lt hWi (by omega) (by omega))
  have ew : (if srect.x1 - srect.x0 < drect.x1 - drect.x0 then srect.x1 - srect.x0
      else drect.x1 - drect.x0) = min (drect.x1 - drect.x0) (srect.x1 - srect.x0) := by
    split <;> omega
  have eh : (if srect.y1 - srect.y0 < drect.y1 - drect.y0 then srect.y1 - srect.y0
      else drect.y1 - drect.y0) = min (drect.y1 - drect.y0) (srect.y1 - srect.y0) := by
    split <;> omega
  have hfitd : drect.y0 * out.width + drect.x0 +
      min (drect.y1 - drect.y0) (srect.y1 - srect.y0) * out.width ≤ b0.length := by
    have h1 := rect_rows_fit (W := out.width) (H := out.height) hdy hdy1
      (by omega : drect.x0 < out.width)
    have h2 : min (drect.y1 - drect.y0) (srect.y1 - srect.y0) * out.width
        ≤ (drect.y1 - drect.y0) * out.width := Nat.mul_le_mul_right _ (Nat.min_le_left _ _)
    omega
  have hfits : srect.y0 * inp.width + srect.x0 +
      min (drect.y1 - drect.y0) (srect.y1 - srect.y0) * inp.width ≤ in_buf.length := by
    have h1 := rect_rows_fit (W := inp.width) (H := inp.height) hsy hsy1
      (by omega : srect.x0 < inp.width)
    have h2 : min (drect.y1 - drect.y0) (srect.y1 - srect.y0) * inp.width
        ≤ (srect.y1 - srect.y0) * inp.width := Nat.mul_le_mul_right _ (Nat.min_le_right _ _)
    omega
  obtain ⟨buf, h1, h2, h3, h4⟩ :=
    render_rows_spec (min (drect.x1 - drect.x0) (srect.x1 - srect.x0)) inp.width out.width in_buf
      (by omega) (by omega) (by omega)
      (min (drect.y1 - drect.y0) (srect.y1 - srect.y0))
      (drect.y0 * out.width + drect.x0) (srect.y0 * inp.width + srect.x0) b0 hfitd hfits
  have eidx : ∀ (y0 x0 W i j : Nat), (y0 + i) * W + (x0 + j) = y0 * W + x0 + i * W + j := by
    intro y0 x0 W i j
    rw [Nat.add_mul]; omega
  refine ⟨buf, ?_, by rw [h2, hlen0], ?_, ?_⟩
  · unfold vdp_output_surface_render_output_surface
    simp only [hdst, hsrc, handle_get_ne_invalid hsrc, hvd, hvs, hfmt, hin, if_false, ne_eq,
      not_true_eq_false, Bool.true_eq_false]
    rw [hclr]
    simp only [hal, ew0, ews, eh0, ehs, ed, es, ew, eh, hne, decide_False, h1]
  · intro i hi j hj
    have hb : srect.y0 * inp.width + srect.x0 + i * inp.width + j < in_buf.length := by
      have hi1 : (i + 1) * inp.width ≤
          min (drect.y1 - drect.y0) (srect.y1 - srect.y0) * inp.width :=
        Nat.mul_le_mul_right _ (by omega)
      rw [Nat.succ_mul] at hi1
      omega
    refine ⟨in_buf[srect.y0 * inp.width + srect.x0 + i * inp.width + j], ?_, ?_⟩
    · rw [eidx, List.getElem?_eq_getElem hb]
    · rw [eidx, h3 i hi j hj, List.getElem?_eq_getElem hb]
  · intro k hk
    rw [← hprev]
    apply h4
    intro i hi j hj
    rw [← eidx]
    exact hk i hi j hj

theorem handle_get_set_self {ht : Registry} {h : Nat} {o : Object} (o1 : Object)
    (hg : handle_get ht h = some o) : handle_get (handle_set ht h o1) h = some o1 := by
  unfold handle_get at hg ⊢
  by_cases hc : h = VDP_INVALID_HANDLE ∨ h = 0
  · simp [hc] at hg
  · rw [if_neg hc] at hg
    rw [if_neg hc]
    have hlt : h - 1 < ht.length := by
      by_contra hge
      rw [List.getD_eq_default _ _ (by omega)] at hg
      cases hg
    simp [handle_set, List.getD_eq_getElem?_getD, hlt]

theorem handle_get_set_ne {ht : Registry} {h h1 : Nat} {o : Object} (o1 : Object)
    (hg : handle_get ht h = some o) (hne : h1 ≠ h) (h10 : h1 ≠ 0) :
    handle_get (handle_set ht h1 o1) h = some o := by
  unfold handle_get at hg ⊢
  by_cases hc : h = VDP_INVALID_HANDLE ∨ h = 0
  · simp [hc] at hg
  · rw [if_neg hc] at hg
    rw [if_neg hc]
    have hidx : h1 - 1 ≠ h - 1 := by omega
    rw [← hg]
    simp [handle_set, List.getD_eq_getElem?_getD, List.getElem?_set_ne hidx]

theorem handle_get_ne_zero {ht : Registry} {h : Nat} {o : Object}
    (hg : handle_get ht h = some o) : h ≠ 0 := by
  intro e
  simp [handle_get, e] at hg

theorem ioctl_calls_append (a b : List Event) :
    ioctl_calls (a ++ b) = ioctl_calls a ++ ioctl_calls b := by
  induction a with
  | nil => rfl
  | cons e rest ih => cases e <;> simp [ioctl_calls, ih]

theorem display_row_spec (dev : device_ctx_t) (drawable : Nat) (buf : List Nat) (y : Nat) :
    ∀ (n x p : Nat), p + n ≤ buf.length →
      ∃ evs, display_row dev drawable buf y n x p = some (p + n, evs) ∧ ioctl_calls evs = [] := by
  intro n
  induction n with
  | zero => intro x p _; exact ⟨[], rfl, rfl⟩
  | succ n ih =>
    intro x p hp
    obtain ⟨evs, h1, h2⟩ := ih (x + 1) (p + 1) (by omega)
    have hlt : p < buf.length := by omega
    have e : p + 1 + n = p + (n + 1) := by omega
    refine ⟨(if buf[p] >>> 24 > 0x80 then
        [Event.XSetForeground dev.display buf[p], Event.XDrawPoint dev.display drawable x y]
      else []) ++ evs, ?_, ?_⟩
    · simp only [display_row, load, List.getElem?_eq_getElem hlt, h1, e]
    · rw [ioctl_calls_append, h2]
      split <;> rfl

theorem display_rows_spec (dev : device_ctx_t) (drawable : Nat) (buf : List Nat) (W : Nat) :
    ∀ (n y p : Nat), p + n * W ≤ buf.length →
      ∃ evs, display_rows dev drawable buf W n y p = some evs ∧ ioctl_calls evs = [] := by
  intro n
  induction n with
  | zero => intro y p _; exact ⟨[], rfl, rfl⟩
  | succ n ih =>
    intro y p hp
    have hm : (n + 1) * W = n * W + W := Nat.succ_mul n W
    obtain ⟨evs, h1, h2⟩ := display_row_spec dev drawable buf y W 0 p (by omega)
    obtain ⟨rest, h3, h4⟩ := ih (y + 1) (p + W) (by omega)
    refine ⟨evs ++ rest, ?_, by rw [ioctl_calls_append, h2, h4]; rfl⟩
    simp only [display_rows, h1, h3]

theorem display_result (ht : Registry) (v2p : Nat → Nat) (f2u : Rat → Nat) (win_x win_y : Int)
    (qh sh cw chh ept : Nat) (q : queue_ctx_t) (os : output_surface_ctx_t)
    (vs : video_surface_ctx_t)
    (hq : handle_get ht qh = some (Object.queue q))
    (hs : handle_get ht sh = some (Object.output_surface os))
    (hvs : os.vs = some vs) (hok : surface_ok os) :
    ∃ tr,
      vdp_presentation_queue_display ht v2p f2u win_x win_y qh sh cw chh ept =
        some (VDP_STATUS_OK,
          (if os.csc_change ≠ 0 then
            handle_set ht sh (Object.output_surface { os with csc_change := 0 }) else ht), tr) ∧
      ioctl_calls tr = layer_calls q (display_layer_info v2p os vs win_x win_y) ++
        (if os.csc_change ≠ 0 then
          enhance_calls f2u q os (display_layer_info v2p os vs win_x win_y) else []) := by
  obtain ⟨_, _, _, _, hdata⟩ := hok
  have hdrawn : ∃ drawn, display_overlay q os = some drawn ∧ ioctl_calls drawn = [] := by
    unfold display_overlay
    cases hd : os.data with
    | none => exact ⟨[], rfl, rfl⟩
    | some buf =>
      by_cases hc : os.data_clear = 0
      · obtain ⟨evs, h1, h2⟩ := display_rows_spec q.device q.target.drawable buf os.width
          os.height 0 0 (by rw [hdata buf hd, Nat.mul_comm]; omega)
        refine ⟨[Event.XCreateGC q.device.display q.target.drawable] ++ evs ++
          [Event.XFreeGC q.device.display, Event.XFlush q.device.display], ?_, ?_⟩
        · simp only [hc, if_true, h1]
        · rw [ioctl_calls_append, ioctl_calls_append, h2]
          rfl
      · exact ⟨[], by simp [hc], rfl⟩
  obtain ⟨drawn, hd1, hd2⟩ := hdrawn
  unfold vdp_presentation_queue_display
  simp only [hq, hs, hvs, hd1]
  by_cases hc : os.csc_change = 0
  · have hn : ¬ (os.csc_change ≠ 0) := fun h => h hc
    simp only [if_neg hn]
    refine ⟨_, rfl, ?_⟩
    simp [ioctl_calls_append, hd2, ioctl_calls, layer_calls]
  · have hn : os.csc_change ≠ 0 := hc
    simp only [if_pos hn]
    refine ⟨_, rfl, ?_⟩
    simp [ioctl_calls_append, hd2, ioctl_calls, layer_calls, enhance_calls]

theorem toU32_toU32 (z : Int) : toU32 (toU32 z) = toU32 z := by
  unfold toU32
  omega

theorem toS32_toU32 (z : Int) : toS32 (toU32 z) = toS32 z := by
  unfold toS32
  rw [toU32_toU32]

theorem toS32_mod (z : Int) : toS32 z % 4294967296 = z % 4294967296 := by
  unfold toS32 toU32
  split <;> omega

theorem toS32_congr {a b : Int} (h : a % 4294967296 = b % 4294967296) : toS32 a = toS32 b := by
  unfold toS32 toU32
  rw [h]

theorem toU32_clip (a b : Nat) (y : Int) :
    toU32 ((sub32 a b : Nat) - toS32 (-y)) = toU32 ((a : Int) - b - (-y)) := by
  have h := toS32_mod (-y)
  unfold toU32 sub32
  omega

theorem toS32_clip (a : Nat) (y : Int) :
    toS32 (toS32 a + toS32 (-y)) = toS32 ((a : Int) + (-y)) := by
  apply toS32_congr
  have h1 := toS32_mod a
  have h2 := toS32_mod (-y)
  omega

theorem clip_negative_y_neg (src_win scn_win : disp_rect_t) (h : scn_win.y < 0) :
    clip_negative_y src_win scn_win =
      ({ src_win with y := toS32 (src_win.y + toS32 (-scn_win.y)),
                      height := toU32 (src_win.height - toS32 (-scn_win.y)) },
       { scn_win with y := 0, height := toU32 (scn_win.height - toS32 (-scn_win.y)) }) := by
  unfold clip_negative_y
  rw [if_pos h]

theorem clip_negative_y_nonneg (src_win scn_win : disp_rect_t) (h : 0 ≤ scn_win.y) :
    clip_negative_y src_win scn_win = (src_win, scn_win) := by
  unfold clip_negative_y
  rw [if_neg (not_lt.mpr h)]

theorem clip_negative_y_x (src_win scn_win : disp_rect_t) :
    (clip_negative_y src_win scn_win).1.x = src_win.x ∧
    (clip_negative_y src_win scn_win).1.width = src_win.width ∧
    (clip_negative_y src_win scn_win).2.x = scn_win.x ∧
    (clip_negative_y src_win scn_win).2.width = scn_win.width := by
  rcases lt_or_le scn_win.y 0 with h | h
  · rw [clip_negative_y_neg _ _ h]
    exact ⟨rfl, rfl, rfl, rfl⟩
  · rw [clip_negative_y_nonneg _ _ h]
    exact ⟨rfl, rfl, rfl, rfl⟩

theorem display_layer_info_eq (v2p : Nat → Nat) (os : output_surface_ctx_t)
    (vs : video_surface_ctx_t) (x y : Int) :
    display_layer_info v2p os vs x y =
      { mode := disp_layer_work_mode_t.DISP_LAYER_WORK_MODE_SCALER, pipe := 1, ck_enable := 1,
        src_win := (clip_negative_y (display_src_win os) (display_scn_win os x y)).1,
        scn_win := (clip_negative_y (display_src_win os) (display_scn_win os x y)).2,
        fb := display_fb v2p vs } := rfl

theorem display_layer_info_src_win (v2p : Nat → Nat) (os : output_surface_ctx_t)
    (vs : video_surface_ctx_t) (x y : Int) :
    (display_layer_info v2p os vs x y).src_win =
      (clip_negative_y (display_src_win os) (display_scn_win os x y)).1 := by
  rw [display_layer_info_eq]

theorem display_layer_info_scn_win (v2p : Nat → Nat) (os : output_surface_ctx_t)
    (vs : video_surface_ctx_t) (x y : Int) :
    (display_layer_info v2p os vs x y).scn_win =
      (clip_negative_y (display_src_win os) (display_scn_win os x y)).2 := by
  rw [display_layer_info_eq]

theorem display_scn_win_y (os : output_surface_ctx_t) (x y : Int) :
    (display_scn_win os x y).y = toS32 (y + os.video_dst_rect.y0) := by
  unfold display_scn_win
  exact toS32_toU32 _

theorem layer_info_windows (v2p : Nat → Nat) (os : output_surface_ctx_t)
    (vs : video_surface_ctx_t) (x y : Int) :
    (display_layer_info v2p os vs x y).src_win.x = toS32 os.video_src_rect.x0 ∧
    (display_layer_info v2p os vs x y).src_win.width =
      sub32 os.video_src_rect.x1 os.video_src_rect.x0 ∧
    (display_layer_info v2p os vs x y).scn_win.x = toS32 (x + os.video_dst_rect.x0) ∧
    (display_layer_info v2p os vs x y).scn_win.width =
      sub32 os.video_dst_rect.x1 os.video_dst_rect.x0 ∧
    (toS32 (y + os.video_dst_rect.y0) < 0 →
      (display_layer_info v2p os vs x y).scn_win.y = 0 ∧
      (display_layer_info v2p os vs x y).scn_win.height =
        toU32 ((os.video_dst_rect.y1 : Int) - os.video_dst_rect.y0 -
          (-(toS32 (y + os.video_dst_rect.y0)))) ∧
      (display_layer_info v2p os vs x y).src_win.y =
        toS32 ((os.video_src_rect.y0 : Int) + (-(toS32 (y + os.video_dst_rect.y0)))) ∧
      (display_layer_info v2p os vs x y).src_win.height =
        toU32 ((os.video_src_rect.y1 : Int) - os.video_src_rect.y0 -
          (-(toS32 (y + os.video_dst_rect.y0))))) ∧
    (0 ≤ toS32 (y + os.video_dst_rect.y0) →
      (display_layer_info v2p os vs x y).scn_win.y = toS32 (y + os.video_dst_rect.y0) ∧
      (display_layer_info v2p os vs x y).scn_win.height =
        sub32 os.video_dst_rect.y1 os.video_dst_rect.y0 ∧
      (display_layer_info v2p os vs x y).src_win.y = toS32 os.video_src_rect.y0 ∧
      (display_layer_info v2p os vs x y).src_win.height =
        sub32 os.video_src_rect.y1 os.video_src_rect.y0) := by
  rw [display_layer_info_src_win, display_layer_info_scn_win]
  obtain ⟨hx1, hx2, hx3, hx4⟩ := clip_negative_y_x (display_src_win os) (display_scn_win os x y)
  refine ⟨hx1, hx2, ?_, hx4, ?_, ?_⟩
  · rw [hx3]
    exact toS32_toU32 _
  · intro h
    have h1 : (display_scn_win os x y).y < 0 := by rw [display_scn_win_y]; exact h
    rw [clip_negative_y_neg _ _ h1]
    refine ⟨rfl, ?_, ?_, ?_⟩
    · show toU32 (((display_scn_win os x y).height : Int) - toS32 (-(display_scn_win os x y).y)) = _
      rw [display_scn_win_y]
      exact toU32_clip _ _ _
    · show toS32 ((display_src_win os).y + toS32 (-(display_scn_win os x y).y)) = _
      rw [display_scn_win_y]
      exact toS32_clip _ _
    · show toU32 (((display_src_win os).height : Int) - toS32 (-(display_scn_win os x y).y)) = _
      rw [display_scn_win_y]
      exact toU32_clip _ _ _
  · intro h
    have h1 : 0 ≤ (display_scn_win os x y).y := by rw [display_scn_win_y]; exact h
    rw [clip_negative_y_nonneg _ _ h1]
    exact ⟨display_scn_win_y os x y, rfl, rfl, rfl⟩

theorem display_layer_info_fixed (v2p : Nat → Nat) (os : output_surface_ctx_t)
    (vs : video_surface_ctx_t) (x y : Int) :
    (display_layer_info v2p os vs x y).mode = disp_layer_work_mode_t.DISP_LAYER_WORK_MODE_SCALER ∧
    (display_layer_info v2p os vs x y).pipe = 1 ∧
    (display_layer_info v2p os vs x y).fb.cs_mode = disp_cs_mode_t.DISP_BT601 ∧
    (display_layer_info v2p os vs x y).ck_enable = 1 ∧
    ((display_layer_info v2p os vs x y).fb.mode, (display_layer_info v2p os vs x y).fb.format,
      (display_layer_info v2p os vs x y).fb.seq) = display_fb_format vs.source_format :=
  ⟨rfl, rfl, rfl, rfl, rfl⟩

theorem sample_surface_ok : surface_ok sample_surface :=
  ⟨by decide, by decide, by decide, by decide, fun _ h => by cases h⟩

theorem sample_source_surface_ok : surface_ok sample_source_surface :=
  ⟨by decide, by decide, by decide, by decide, fun _ h => by cases h; rfl⟩

theorem sample_video_surface_ok : surface_ok sample_video_surface :=
  ⟨by decide, by decide, by decide, by decide, fun _ h => by cases h⟩

/-- C2: `vdp_output_surface_put_bits_indexed` with a source pitch below twice
the rectangle width, on a surface that has no pixel buffer (supported formats,
valid rectangle, pitch 3 for width 2).  The call returns `InvalidSize`, but the
surface is not left as it was: the buffer has been allocated, zero-filled,
before the pitch is examined. -/
theorem put_bits_indexed_short_pitch_allocates :
    sample_surface.data = none ∧
    vdp_output_surface_put_bits_indexed sample_registry true 4 VDP_INDEXED_FORMAT_I8A8
        sample_indexed_source 3 ⟨0, 0, 2, 2⟩ VDP_COLOR_TABLE_FORMAT_B8G8R8X8 sample_color_table
      = some (VDP_STATUS_INVALID_SIZE,
          handle_set sample_registry 4
            (Object.output_surface
              { sample_surface with data := some [0, 0, 0, 0, 0, 0, 0, 0, 0] })) := by
  decide

/-- C3, as stated, fails: with an unsupported source format (A4I4) and the
rectangle `(0, 0, 5, 5)` on a 3 by 3 surface, the call returns `InvalidSize`
and not `OK`; the rectangle is checked before the formats are. -/
theorem put_bits_indexed_unsupported_bad_rect :
    vdp_output_surface_put_bits_indexed sample_registry true 4 0
        sample_indexed_source 8 ⟨0, 0, 5, 5⟩ VDP_COLOR_TABLE_FORMAT_B8G8R8X8 sample_color_table
      = some (VDP_STATUS_INVALID_SIZE, sample_registry) ∧
    vdp_output_surface_put_bits_indexed sample_registry true 4 0
        sample_indexed_source 8 ⟨0, 0, 5, 5⟩ VDP_COLOR_TABLE_FORMAT_B8G8R8X8 sample_color_table
      ≠ some (VDP_STATUS_OK, sample_registry) := by
  decide

/-- C3, amended: `vdp_output_surface_put_bits_indexed` with a format
combination other than surface B8G8R8A8, source I8A8, table B8G8R8X8 never
changes the surface, whatever the rectangle and the source pitch; it returns
`OK` when the rectangle passes `valid_rect` and `InvalidSize` when it does
not. -/
theorem put_bits_indexed_unsupported (ht : Registry) (calloc_ok : Bool) (surface : Nat)
    (out : output_surface_ctx_t) (source_indexed_format : Nat) (src : Nat → Nat) (pitch : Nat)
    (rect : VdpRect) (color_table_format : Nat) (palette : Nat → Nat)
    (hreg : handle_get ht surface = some (Object.output_surface out))
    (hfmt : out.rgba_format ≠ VDP_RGBA_FORMAT_B8G8R8A8 ∨
      source_indexed_format ≠ VDP_INDEXED_FORMAT_I8A8 ∨
      color_table_format ≠ VDP_COLOR_TABLE_FORMAT_B8G8R8X8) :
    vdp_output_surface_put_bits_indexed ht calloc_ok surface source_indexed_format src pitch rect
        color_table_format palette =
      some (if valid_rect rect out = true then VDP_STATUS_OK else VDP_STATUS_INVALID_SIZE, ht) := by
  unfold vdp_output_surface_put_bits_indexed
  simp only [hreg]
  by_cases hv : valid_rect rect out = true
  · simp only [hv, Bool.true_eq_false, if_false, if_true, if_pos hfmt]
  · have hv1 : valid_rect rect out = false := by simpa using hv
    simp only [hv1, if_true, Bool.false_eq_true, if_false]

/-- C3, amended, at a concrete input: source format A4I4 and a valid
rectangle on the sample surface. -/
theorem put_bits_indexed_unsupported_witness :
    vdp_output_surface_put_bits_indexed sample_registry true 4 0 sample_indexed_source 8
        ⟨0, 0, 2, 2⟩ VDP_COLOR_TABLE_FORMAT_B8G8R8X8 sample_color_table =
      some (if valid_rect ⟨0, 0, 2, 2⟩ sample_surface = true then VDP_STATUS_OK
        else VDP_STATUS_INVALID_SIZE, sample_registry) :=
  put_bits_indexed_unsupported sample_registry true 4 sample_surface 0 sample_indexed_source 8
    ⟨0, 0, 2, 2⟩ VDP_COLOR_TABLE_FORMAT_B8G8R8X8 sample_color_table (by decide)
    (Or.inr (Or.inl (by decide)))

theorem handle_get_create {ht ht1 : Registry} {ok : Bool} {o : Object} {h : Nat}
    (hc : handle_create ht ok o = some (ht1, h)) : handle_get ht1 h = some o := by
  unfold handle_create at hc
  split at hc
  · rename_i hcond
    cases hc
    have hne : ¬ (ht.length + 1 = VDP_INVALID_HANDLE ∨ ht.length + 1 = 0) := by
      intro hor
      rcases hor with e | e
      · rw [e] at hcond; exact absurd hcond.2 (lt_irrefl _)
      · omega
    unfold handle_get
    rw [if_neg hne]
    simp [List.getD_eq_getElem?_getD]
  · cases hc

/-- C5: `vdp_output_surface_render_output_surface` with source
`VDP_INVALID_HANDLE` on a registered destination returns `OK` for every
destination rectangle, source rectangle (null pointers included), colours,
blend state and flags; afterwards the destination has no pixel buffer and is
otherwise unchanged, and `vdp_output_surface_get_parameters` returns `OK` with
the same format, width and height as before. -/
theorem render_invalid_source_clears (ht : Registry) (calloc_ok : Bool) (dst_handle : Nat)
    (out : output_surface_ctx_t) (drect srect : Option VdpRect) (colors : Option VdpColor)
    (blend_state : Option Nat) (flags : Nat)
    (hdst : handle_get ht dst_handle = some (Object.output_surface out)) :
    ∃ ht1,
      vdp_output_surface_render_output_surface ht calloc_ok dst_handle drect VDP_INVALID_HANDLE
          srect colors blend_state flags = some (VDP_STATUS_OK, ht1) ∧
      handle_get ht1 dst_handle = some (Object.output_surface { out with data := none }) ∧
      vdp_output_surface_get_parameters ht1 dst_handle true true true =
        (VDP_STATUS_OK, some out.rgba_format, some out.width, some out.height) ∧
      vdp_output_surface_get_parameters ht1 dst_handle true true true =
        vdp_output_surface_get_parameters ht dst_handle true true true := by
  have hparams : ∀ ht1 : Registry,
      handle_get ht1 dst_handle = some (Object.output_surface { out with data := none }) →
      vdp_output_surface_get_parameters ht1 dst_handle true true true =
        (VDP_STATUS_OK, some out.rgba_format, some out.width, some out.height) := by
    intro ht1 h1
    simp [vdp_output_surface_get_parameters, h1]
  have hbefore : vdp_output_surface_get_parameters ht dst_handle true true true =
      (VDP_STATUS_OK, some out.rgba_format, some out.width, some out.height) := by
    simp [vdp_output_surface_get_parameters, hdst]
  cases hd : out.data with
  | none =>
    have hsame : handle_get ht dst_handle =
        some (Object.output_surface { out with data := none }) := by
      rw [hdst, ← hd]
    refine ⟨ht, ?_, hsame, hparams ht hsame, rfl⟩
    unfold vdp_output_surface_render_output_surface
    simp only [hdst, hd, if_true]
  | some buf =>
    have hset := handle_get_set_self (Object.output_surface { out with data := none }) hdst
    refine ⟨_, ?_, hset, hparams _ hset, by rw [hparams _ hset, hbefore]⟩
    unfold vdp_output_surface_render_output_surface
    simp only [hdst, hd, if_true]

/-- C5 at a concrete input: a populated surface, a destination rectangle
that would not pass `valid_rect`, and a null source rectangle. -/
theorem render_invalid_source_clears_witness :
    vdp_output_surface_render_output_surface sample_registry true 5 (some ⟨7, 7, 1, 1⟩)
        VDP_INVALID_HANDLE none none none 3 =
      some (VDP_STATUS_OK,
        handle_set sample_registry 5
          (Object.output_surface { sample_source_surface with data := none })) ∧
    ∃ ht1,
      vdp_output_surface_render_output_surface sample_registry true 5 (some ⟨7, 7, 1, 1⟩)
          VDP_INVALID_HANDLE none none none 3 = some (VDP_STATUS_OK, ht1) ∧
      handle_get ht1 5 =
        some (Object.output_surface { sample_source_surface with data := none }) ∧
      vdp_output_surface_get_parameters ht1 5 true true true =
        (VDP_STATUS_OK, some sample_source_surface.rgba_format,
          some sample_source_surface.width, some sample_source_surface.height) ∧
      vdp_output_surface_get_parameters ht1 5 true true true =
        vdp_output_surface_get_parameters sample_registry 5 true true true :=
  ⟨by decide,
    render_invalid_source_clears sample_registry true 5 sample_source_surface
      (some ⟨7, 7, 1, 1⟩) none none none 3 (by decide)⟩

/-- C6: `vdp_output_surface_create` with a non-null output pointer returns
`InvalidSize` exactly when width or height is 0 or at least 16384, whatever
the device handle and the allocator do.  With a registered device and
successful allocations, every size strictly between 0 and 16384 (16383 by
16383 in particular) succeeds and registers a surface with no pixel buffer,
contrast = saturation = 1 and brightness = hue = 0, and 16384 in either
dimension fails. -/
theorem output_surface_create_contract (ht : Registry) (device : Nat) (dev : device_ctx_t)
    (rgba_format : Nat)
    (hdev : handle_get ht device = some (Object.device dev))
    (hroom : ht.length + 1 < VDP_INVALID_HANDLE) :
    (∀ (calloc_ok handle_ok : Bool) (any_device width height : Nat),
      (vdp_output_surface_create ht calloc_ok handle_ok any_device rgba_format width height
          true).1 = VDP_STATUS_INVALID_SIZE ↔
        (width = 0 ∨ height = 0 ∨ width ≥ 16384 ∨ height ≥ 16384)) ∧
    (∀ width height, 0 < width → width < 16384 → 0 < height → height < 16384 →
      ∃ ht1 handle s,
        vdp_output_surface_create ht true true device rgba_format width height true =
          (VDP_STATUS_OK, ht1, some handle) ∧
        handle_get ht1 handle = some (Object.output_surface s) ∧
        s.data = none ∧ s.contrast = 1 ∧ s.saturation = 1 ∧ s.brightness = 0 ∧ s.hue = 0 ∧
        s.width = width ∧ s.height = height ∧ s.rgba_format = rgba_format) ∧
    (vdp_output_surface_create ht true true device rgba_format 16383 16383 true).1 =
      VDP_STATUS_OK ∧
    (∀ n, (vdp_output_surface_create ht true true device rgba_format 16384 n true).1 =
        VDP_STATUS_INVALID_SIZE ∧
      (vdp_output_surface_create ht true true device rgba_format n 16384 true).1 =
        VDP_STATUS_INVALID_SIZE) := by
  have hsize : ∀ (calloc_ok handle_ok : Bool) (any_device width height : Nat),
      (vdp_output_surface_create ht calloc_ok handle_ok any_device rgba_format width height
          true).1 = VDP_STATUS_INVALID_SIZE ↔
        (width = 0 ∨ height = 0 ∨ width ≥ 16384 ∨ height ≥ 16384) := by
    intro calloc_ok handle_ok any_device width height
    unfold vdp_output_surface_create
    by_cases hs : width = 0 ∨ height = 0 ∨ width ≥ 16384 ∨ height ≥ 16384
    · simp [hs]
    · simp only [Bool.true_eq_false, if_false, hs, iff_false]
      split
      · split
        · simp
        · split <;> simp
      · simp
  have hok : ∀ width height, 0 < width → width < 16384 → 0 < height → height < 16384 →
      ∃ ht1 handle s,
        vdp_output_surface_create ht true true device rgba_format width height true =
          (VDP_STATUS_OK, ht1, some handle) ∧
        handle_get ht1 handle = some (Object.output_surface s) ∧
        s.data = none ∧ s.contrast = 1 ∧ s.saturation = 1 ∧ s.brightness = 0 ∧ s.hue = 0 ∧
        s.width = width ∧ s.height = height ∧ s.rgba_format = rgba_format := by
    intro width height hw0 hw hh0 hh
    have hs : ¬ (width = 0 ∨ height = 0 ∨ width ≥ 16384 ∨ height ≥ 16384) := by omega
    have hcreate : ∀ o : Object,
        handle_create ht true o = some (ht ++ [some o], ht.length + 1) := by
      intro o
      simp [handle_create, hroom]
    refine ⟨_, ht.length + 1,
      { output_surface_calloc with
        width := width, height := height, rgba_format := rgba_format,
        contrast := 1, saturation := 1, device := dev, data := none },
      ?_, handle_get_create (hcreate _), rfl, rfl, rfl, rfl, rfl, rfl, rfl, rfl⟩
    unfold vdp_output_surface_create
    simp only [Bool.true_eq_false, if_false, hs, hdev, hcreate]
  refine ⟨hsize, hok, ?_, ?_⟩
  · obtain ⟨ht1, handle, s, h1, _⟩ := hok 16383 16383 (by decide) (by decide) (by decide)
      (by decide)
    rw [h1]
  · intro n
    exact ⟨(hsize true true device 16384 n).2 (Or.inr (Or.inr (Or.inl (le_refl _)))),
      (hsize true true device n 16384).2 (Or.inr (Or.inr (Or.inr (le_refl _))))⟩

/-- C6 at a concrete input: the sample registry and its device handle 1. -/
theorem output_surface_create_contract_witness :
    (∀ (calloc_ok handle_ok : Bool) (any_device width height : Nat),
      (vdp_output_surface_create sample_registry calloc_ok handle_ok any_device
          VDP_RGBA_FORMAT_B8G8R8A8 width height true).1 = VDP_STATUS_INVALID_SIZE ↔
        (width = 0 ∨ height = 0 ∨ width ≥ 16384 ∨ height ≥ 16384)) ∧
    (∀ width height, 0 < width → width < 16384 → 0 < height → height < 16384 →
      ∃ ht1 handle s,
        vdp_output_surface_create sample_registry true true 1 VDP_RGBA_FORMAT_B8G8R8A8 width
            height true = (VDP_STATUS_OK, ht1, some handle) ∧
        handle_get ht1 handle = some (Object.output_surface s) ∧
        s.data = none ∧ s.contrast = 1 ∧ s.saturation = 1 ∧ s.brightness = 0 ∧ s.hue = 0 ∧
        s.width = width ∧ s.height = height ∧ s.rgba_format = VDP_RGBA_FORMAT_B8G8R8A8) ∧
    (vdp_output_surface_create sample_registry true true 1 VDP_RGBA_FORMAT_B8G8R8A8 16383 16383
        true).1 = VDP_STATUS_OK ∧
    (∀ n, (vdp_output_surface_create sample_registry true true 1 VDP_RGBA_FORMAT_B8G8R8A8 16384 n
          true).1 = VDP_STATUS_INVALID_SIZE ∧
      (vdp_output_surface_create sample_registry true true 1 VDP_RGBA_FORMAT_B8G8R8A8 n 16384
          true).1 = VDP_STATUS_INVALID_SIZE) :=
  output_surface_create_contract sample_registry 1 sample_device VDP_RGBA_FORMAT_B8G8R8A8
    (by decide) (by decide)

/-- C7: the negative-screen-Y clip of `vdp_presentation_queue_display`.  For a
registered queue and a registered surface with a video buffer, let `Y` be the
window y plus `video_dst_rect.y0` as a 32-bit signed value.  The block passed
to `LAYER_SET_PARA` has the x and width of both windows as stored (offset by
the window origin for the screen window).  If `Y < 0` then `scn_win.y = 0`,
`scn_win.height = (dst.y1 - dst.y0) - (-Y)`, `src_win.y = src.y0 + (-Y)` and
`src_win.height = (src.y1 - src.y0) - (-Y)`, all in 32-bit arithmetic; if
`Y ≥ 0` the y and height of both windows are the stored ones, the screen
window offset by the window origin. -/
theorem display_negative_y_clip (ht : Registry) (v2p : Nat → Nat) (f2u : Rat → Nat)
    (win_x win_y : Int) (qh sh cw chh ept : Nat) (q : queue_ctx_t) (os : output_surface_ctx_t)
    (vs : video_surface_ctx_t) (Y : Int)
    (hq : handle_get ht qh = some (Object.queue q))
    (hs : handle_get ht sh = some (Object.output_surface os))
    (hvs : os.vs = some vs) (hok : surface_ok os)
    (hY : Y = toS32 (win_y + os.video_dst_rect.y0)) :
    ∃ ht1 tr rest info,
      vdp_presentation_queue_display ht v2p f2u win_x win_y qh sh cw chh ept =
        some (VDP_STATUS_OK, ht1, tr) ∧
      ioctl_calls tr =
        (disp_cmd_t.DISP_CMD_LAYER_SET_PARA,
          ⟨0, q.target.layer, ioctl_word.layer_info info, 0⟩) :: rest ∧
      info.src_win.x = toS32 os.video_src_rect.x0 ∧
      info.src_win.width = sub32 os.video_src_rect.x1 os.video_src_rect.x0 ∧
      info.scn_win.x = toS32 (win_x + os.video_dst_rect.x0) ∧
      info.scn_win.width = sub32 os.video_dst_rect.x1 os.video_dst_rect.x0 ∧
      (Y < 0 →
        info.scn_win.y = 0 ∧
        info.scn_win.height =
          toU32 ((os.video_dst_rect.y1 : Int) - os.video_dst_rect.y0 - (-Y)) ∧
        info.src_win.y = toS32 ((os.video_src_rect.y0 : Int) + (-Y)) ∧
        info.src_win.height =
          toU32 ((os.video_src_rect.y1 : Int) - os.video_src_rect.y0 - (-Y))) ∧
      (0 ≤ Y →
        info.scn_win.y = Y ∧
        info.scn_win.height = sub32 os.video_dst_rect.y1 os.video_dst_rect.y0 ∧
        info.src_win.y = toS32 os.video_src_rect.y0 ∧
        info.src_win.height = sub32 os.video_src_rect.y1 os.video_src_rect.y0) := by
  obtain ⟨tr, h1, h2⟩ := display_result ht v2p f2u win_x win_y qh sh cw chh ept q os vs hq hs hvs hok
  obtain ⟨w1, w2, w3, w4, w5, w6⟩ := layer_info_windows v2p os vs win_x win_y
  subst hY
  exact ⟨_, tr, _, display_layer_info v2p os vs win_x win_y, h1, h2, w1, w2, w3, w4, w5, w6⟩

/-- C8: `vdp_presentation_queue_display` on a registered queue and a
registered surface with a video buffer issues the driver calls
`LAYER_SET_PARA`, `LAYER_BOTTOM`, `LAYER_OPEN` and then, exactly when
`csc_change` is non-zero on entry, `ENHANCE_OFF`, `SET_BRIGHT`, `SET_CONTRAST`,
`SET_SATURATION`, `SET_HUE`, `ENHANCE_ON` in that order.  Afterwards
`csc_change` is zero, so a second Display issues only the three layer calls. -/
theorem display_enhancement_push (ht : Registry) (v2p : Nat → Nat) (f2u : Rat → Nat)
    (win_x win_y : Int) (qh sh cw chh ept : Nat) (q : queue_ctx_t) (os : output_surface_ctx_t)
    (vs : video_surface_ctx_t)
    (hq : handle_get ht qh = some (Object.queue q))
    (hs : handle_get ht sh = some (Object.output_surface os))
    (hvs : os.vs = some vs) (hok : surface_ok os) :
    ∃ ht1 tr,
      vdp_presentation_queue_display ht v2p f2u win_x win_y qh sh cw chh ept =
        some (VDP_STATUS_OK, ht1, tr) ∧
      (ioctl_calls tr).map Prod.fst =
        [disp_cmd_t.DISP_CMD_LAYER_SET_PARA, disp_cmd_t.DISP_CMD_LAYER_BOTTOM,
          disp_cmd_t.DISP_CMD_LAYER_OPEN] ++
        (if os.csc_change ≠ 0 then
          [disp_cmd_t.DISP_CMD_LAYER_ENHANCE_OFF, disp_cmd_t.DISP_CMD_LAYER_SET_BRIGHT,
           disp_cmd_t.DISP_CMD_LAYER_SET_CONTRAST, disp_cmd_t.DISP_CMD_LAYER_SET_SATURATION,
           disp_cmd_t.DISP_CMD_LAYER_SET_HUE, disp_cmd_t.DISP_CMD_LAYER_ENHANCE_ON]
         else []) ∧
      handle_get ht1 sh = some (Object.output_surface { os with csc_change := 0 }) ∧
      ∀ (win_x2 win_y2 : Int) (cw2 chh2 ept2 : Nat),
        ∃ ht2 tr2,
          vdp_presentation_queue_display ht1 v2p f2u win_x2 win_y2 qh sh cw2 chh2 ept2 =
            some (VDP_STATUS_OK, ht2, tr2) ∧
          (ioctl_calls tr2).map Prod.fst =
            [disp_cmd_t.DISP_CMD_LAYER_SET_PARA, disp_cmd_t.DISP_CMD_LAYER_BOTTOM,
              disp_cmd_t.DISP_CMD_LAYER_OPEN] := by
  obtain ⟨tr, h1, h2⟩ := display_result ht v2p f2u win_x win_y qh sh cw chh ept q os vs hq hs hvs hok
  have hne : sh ≠ qh := by
    intro e
    rw [e, hq] at hs
    cases hs
  have hs1 : handle_get
      (if os.csc_change ≠ 0 then
        handle_set ht sh (Object.output_surface { os with csc_change := 0 }) else ht) sh =
      some (Object.output_surface { os with csc_change := 0 }) := by
    by_cases hc : os.csc_change = 0
    · rw [if_neg (fun h => h hc), hs, ← hc]
    · rw [if_pos hc]
      exact handle_get_set_self _ hs
  have hq1 : handle_get
      (if os.csc_change ≠ 0 then
        handle_set ht sh (Object.output_surface { os with csc_change := 0 }) else ht) qh =
      some (Object.queue q) := by
    by_cases hc : os.csc_change = 0
    · rw [if_neg (fun h => h hc), hq]
    · rw [if_pos hc]
      exact handle_get_set_ne _ hq hne (handle_get_ne_zero hs)
  refine ⟨_, tr, h1, ?_, hs1, ?_⟩
  · rw [h2]
    by_cases hc : os.csc_change = 0
    · rw [if_neg (fun h => h hc), if_neg (fun h => h hc)]
      rfl
    · rw [if_pos hc, if_pos hc]
      rfl
  · intro win_x2 win_y2 cw2 chh2 ept2
    have hok1 : surface_ok { os with csc_change := 0 } := hok
    obtain ⟨tr2, g1, g2⟩ := display_result _ v2p f2u win_x2 win_y2 qh sh cw2 chh2 ept2 q
      { os with csc_change := 0 } vs hq1 hs1 hvs hok1
    have hz : ¬ ((0 : Nat) ≠ 0) := fun h => h rfl
    refine ⟨_, tr2, g1, ?_⟩
    rw [g2]
    simp only [ne_eq, not_true_eq_false, if_false, List.append_nil]
    rfl

/-- C9: in the block that `vdp_presentation_queue_display` passes to
`LAYER_SET_PARA`, (mode, format, channel order) is (interleaved, YUV422, YUYV)
for YUYV, (interleaved, YUV422, UYVY) for UYVY, (non-macroblock UV-combined,
YUV420, UVUV) for NV12, (non-macroblock planar, YUV420, UVUV) for YV12 and
(macroblock UV-combined, YUV420, UVUV) for the internal format and every other
value; for every source format the working mode is scaler, the pipe is 1, the
colour space is BT.601 and the colour key is enabled. -/
theorem display_format_mapping (ht : Registry) (v2p : Nat → Nat) (f2u : Rat → Nat)
    (win_x win_y : Int) (qh sh cw chh ept : Nat) (q : queue_ctx_t) (os : output_surface_ctx_t)
    (vs : video_surface_ctx_t)
    (hq : handle_get ht qh = some (Object.queue q))
    (hs : handle_get ht sh = some (Object.output_surface os))
    (hvs : os.vs = some vs) (hok : surface_ok os) :
    ∃ ht1 tr rest info,
      vdp_presentation_queue_display ht v2p f2u win_x win_y qh sh cw chh ept =
        some (VDP_STATUS_OK, ht1, tr) ∧
      ioctl_calls tr =
        (disp_cmd_t.DISP_CMD_LAYER_SET_PARA,
          ⟨0, q.target.layer, ioctl_word.layer_info info, 0⟩) :: rest ∧
      (vs.source_format = VDP_YCBCR_FORMAT_YUYV →
        (info.fb.mode, info.fb.format, info.fb.seq) =
          (disp_pixel_mod_t.DISP_MOD_INTERLEAVED, disp_pixel_fmt_t.DISP_FORMAT_YUV422,
            disp_pixel_seq_t.DISP_SEQ_YUYV)) ∧
      (vs.source_format = VDP_YCBCR_FORMAT_UYVY →
        (info.fb.mode, info.fb.format, info.fb.seq) =
          (disp_pixel_mod_t.DISP_MOD_INTERLEAVED, disp_pixel_fmt_t.DISP_FORMAT_YUV422,
            disp_pixel_seq_t.DISP_SEQ_UYVY)) ∧
      (vs.source_format = VDP_YCBCR_FORMAT_NV12 →
        (info.fb.mode, info.fb.format, info.fb.seq) =
          (disp_pixel_mod_t.DISP_MOD_NON_MB_UV_COMBINED, disp_pixel_fmt_t.DISP_FORMAT_YUV420,
            disp_pixel_seq_t.DISP_SEQ_UVUV)) ∧
      (vs.source_format = VDP_YCBCR_FORMAT_YV12 →
        (info.fb.mode, info.fb.format, info.fb.seq) =
          (disp_pixel_mod_t.DISP_MOD_NON_MB_PLANAR, disp_pixel_fmt_t.DISP_FORMAT_YUV420,
            disp_pixel_seq_t.DISP_SEQ_UVUV)) ∧
      (vs.source_format = INTERNAL_YCBCR_FORMAT ∨
        (vs.source_format ≠ VDP_YCBCR_FORMAT_YUYV ∧ vs.source_format ≠ VDP_YCBCR_FORMAT_UYVY ∧
          vs.source_format ≠ VDP_YCBCR_FORMAT_NV12 ∧
          vs.source_format ≠ VDP_YCBCR_FORMAT_YV12) →
        (info.fb.mode, info.fb.format, info.fb.seq) =
          (disp_pixel_mod_t.DISP_MOD_MB_UV_COMBINED, disp_pixel_fmt_t.DISP_FORMAT_YUV420,
            disp_pixel_seq_t.DISP_SEQ_UVUV)) ∧
      info.mode = disp_layer_work_mode_t.DISP_LAYER_WORK_MODE_SCALER ∧ info.pipe = 1 ∧
      info.fb.cs_mode = disp_cs_mode_t.DISP_BT601 ∧ info.ck_enable = 1 := by
  obtain ⟨tr, h1, h2⟩ := display_result ht v2p f2u win_x win_y qh sh cw chh ept q os vs hq hs hvs hok
  obtain ⟨f1, f2, f3, f4, f5⟩ := display_layer_info_fixed v2p os vs win_x win_y
  refine ⟨_, tr, _, display_layer_info v2p os vs win_x win_y, h1, h2, ?_, ?_, ?_, ?_, ?_, f1, f2,
    f3, f4⟩
  · intro h; rw [f5, h]; rfl
  · intro h; rw [f5, h]; rfl
  · intro h; rw [f5, h]; rfl
  · intro h; rw [f5, h]; rfl
  · intro h
    rw [f5]
    rcases h with h | ⟨n1, n2, n3, n4⟩
    · rw [h]; rfl
    · unfold display_fb_format
      rw [if_neg n1, if_neg n2, if_neg n3, if_neg n4]

/-- C7 at a concrete input: `Y = -10` and a destination height of 100 give
screen y 0 and height 90, source y `5 + 10` and source height `100 - 10`. -/
theorem display_negative_y_clip_witness :
    display_layer_info (fun a => a) sample_video_surface sample_video 0 (-10) =
      { mode := disp_layer_work_mode_t.DISP_LAYER_WORK_MODE_SCALER, pipe := 1, ck_enable := 1,
        src_win := ⟨0, 15, 64, 90⟩, scn_win := ⟨0, 0, 100, 90⟩,
        fb := ⟨1073745920, 1073746944, 1073747200, 32, 32, disp_pixel_fmt_t.DISP_FORMAT_YUV422,
          disp_pixel_seq_t.DISP_SEQ_YUYV, disp_pixel_mod_t.DISP_MOD_INTERLEAVED, 0,
          disp_cs_mode_t.DISP_BT601⟩ } ∧
    ∃ ht1 tr rest info,
      vdp_presentation_queue_display sample_registry (fun a => a) (fun _ => 0) 0 (-10) 3 6 0 0 0 =
        some (VDP_STATUS_OK, ht1, tr) ∧
      ioctl_calls tr =
        (disp_cmd_t.DISP_CMD_LAYER_SET_PARA,
          ⟨0, sample_queue.target.layer, ioctl_word.layer_info info, 0⟩) :: rest ∧
      info.src_win.x = toS32 sample_video_surface.video_src_rect.x0 ∧
      info.src_win.width =
        sub32 sample_video_surface.video_src_rect.x1 sample_video_surface.video_src_rect.x0 ∧
      info.scn_win.x = toS32 (0 + sample_video_surface.video_dst_rect.x0) ∧
      info.scn_win.width =
        sub32 sample_video_surface.video_dst_rect.x1 sample_video_surface.video_dst_rect.x0 ∧
      ((-10 : Int) < 0 →
        info.scn_win.y = 0 ∧
        info.scn_win.height =
          toU32 ((sample_video_surface.video_dst_rect.y1 : Int) -
            sample_video_surface.video_dst_rect.y0 - (-(-10))) ∧
        info.src_win.y = toS32 ((sample_video_surface.video_src_rect.y0 : Int) + (-(-10))) ∧
        info.src_win.height =
          toU32 ((sample_video_surface.video_src_rect.y1 : Int) -
            sample_video_surface.video_src_rect.y0 - (-(-10)))) ∧
      ((0 : Int) ≤ -10 →
        info.scn_win.y = -10 ∧
        info.scn_win.height =
          sub32 sample_video_surface.video_dst_rect.y1 sample_video_surface.video_dst_rect.y0 ∧
        info.src_win.y = toS32 sample_video_surface.video_src_rect.y0 ∧
        info.src_win.height =
          sub32 sample_video_surface.video_src_rect.y1 sample_video_surface.video_src_rect.y0) :=
  ⟨by decide,
    display_negative_y_clip sample_registry (fun a => a) (fun _ => 0) 0 (-10) 3 6 0 0 0
      sample_queue sample_video_surface sample_video (-10) (by decide) (by decide) rfl
      sample_video_surface_ok (by decide)⟩

/-- C8 at a concrete input: the sample surface with `csc_change = 1`. -/
theorem display_enhancement_push_witness :
    ∃ ht1 tr,
      vdp_presentation_queue_display sample_registry (fun a => a) (fun _ => 0) 0 0 3 6 0 0 0 =
        some (VDP_STATUS_OK, ht1, tr) ∧
      (ioctl_calls tr).map Prod.fst =
        [disp_cmd_t.DISP_CMD_LAYER_SET_PARA, disp_cmd_t.DISP_CMD_LAYER_BOTTOM,
          disp_cmd_t.DISP_CMD_LAYER_OPEN] ++
        (if sample_video_surface.csc_change ≠ 0 then
          [disp_cmd_t.DISP_CMD_LAYER_ENHANCE_OFF, disp_cmd_t.DISP_CMD_LAYER_SET_BRIGHT,
           disp_cmd_t.DISP_CMD_LAYER_SET_CONTRAST, disp_cmd_t.DISP_CMD_LAYER_SET_SATURATION,
           disp_cmd_t.DISP_CMD_LAYER_SET_HUE, disp_cmd_t.DISP_CMD_LAYER_ENHANCE_ON]
         else []) ∧
      handle_get ht1 6 =
        some (Object.output_surface { sample_video_surface with csc_change := 0 }) ∧
      ∀ (win_x2 win_y2 : Int) (cw2 chh2 ept2 : Nat),
        ∃ ht2 tr2,
          vdp_presentation_queue_display ht1 (fun a => a) (fun _ => 0) win_x2 win_y2 3 6 cw2 chh2
              ept2 = some (VDP_STATUS_OK, ht2, tr2) ∧
          (ioctl_calls tr2).map Prod.fst =
            [disp_cmd_t.DISP_CMD_LAYER_SET_PARA, disp_cmd_t.DISP_CMD_LAYER_BOTTOM,
              disp_cmd_t.DISP_CMD_LAYER_OPEN] :=
  display_enhancement_push sample_registry (fun a => a) (fun _ => 0) 0 0 3 6 0 0 0 sample_queue
    sample_video_surface sample_video (by decide) (by decide) rfl sample_video_surface_ok

/-- C9 at a concrete input: the sample surface, whose video buffer is YUYV. -/
theorem display_format_mapping_witness :
    ∃ ht1 tr rest info,
      vdp_presentation_queue_display sample_registry (fun a => a) (fun _ => 0) 0 0 3 6 0 0 0 =
        some (VDP_STATUS_OK, ht1, tr) ∧
      ioctl_calls tr =
        (disp_cmd_t.DISP_CMD_LAYER_SET_PARA,
          ⟨0, sample_queue.target.layer, ioctl_word.layer_info info, 0⟩) :: rest ∧
      (sample_video.source_format = VDP_YCBCR_FORMAT_YUYV →
        (info.fb.mode, info.fb.format, info.fb.seq) =
          (disp_pixel_mod_t.DISP_MOD_INTERLEAVED, disp_pixel_fmt_t.DISP_FORMAT_YUV422,
            disp_pixel_seq_t.DISP_SEQ_YUYV)) ∧
      (sample_video.source_format = VDP_YCBCR_FORMAT_UYVY →
        (info.fb.mode, info.fb.format, info.fb.seq) =
          (disp_pixel_mod_t.DISP_MOD_INTERLEAVED, disp_pixel_fmt_t.DISP_FORMAT_YUV422,
            disp_pixel_seq_t.DISP_SEQ_UYVY)) ∧
      (sample_video.source_format = VDP_YCBCR_FORMAT_NV12 →
        (info.fb.mode, info.fb.format, info.fb.seq) =
          (disp_pixel_mod_t.DISP_MOD_NON_MB_UV_COMBINED, disp_pixel_fmt_t.DISP_FORMAT_YUV420,
            disp_pixel_seq_t.DISP_SEQ_UVUV)) ∧
      (sample_video.source_format = VDP_YCBCR_FORMAT_YV12 →
        (info.fb.mode, info.fb.format, info.fb.seq) =
          (disp_pixel_mod_t.DISP_MOD_NON_MB_PLANAR, disp_pixel_fmt_t.DISP_FORMAT_YUV420,
            disp_pixel_seq_t.DISP_SEQ_UVUV)) ∧
      (sample_video.source_format = INTERNAL_YCBCR_FORMAT ∨
        (sample_video.source_format ≠ VDP_YCBCR_FORMAT_YUYV ∧
          sample_video.source_format ≠ VDP_YCBCR_FORMAT_UYVY ∧
          sample_video.source_format ≠ VDP_YCBCR_FORMAT_NV12 ∧
          sample_video.source_format ≠ VDP_YCBCR_FORMAT_YV12) →
        (info.fb.mode, info.fb.format, info.fb.seq) =
          (disp_pixel_mod_t.DISP_MOD_MB_UV_COMBINED, disp_pixel_fmt_t.DISP_FORMAT_YUV420,
            disp_pixel_seq_t.DISP_SEQ_UVUV)) ∧
      info.mode = disp_layer_work_mode_t.DISP_LAYER_WORK_MODE_SCALER ∧ info.pipe = 1 ∧
      info.fb.cs_mode = disp_cs_mode_t.DISP_BT601 ∧ info.ck_enable = 1 :=
  display_format_mapping sample_registry (fun a => a) (fun _ => 0) 0 0 3 6 0 0 0 sample_queue
    sample_video_surface sample_video (by decide) (by decide) rfl sample_video_surface_ok

/-- C10, as stated, fails: the queue that `vdp_presentation_queue_create`
returns on the sample registry has background alpha 0, not 1. -/
theorem queue_default_background_alpha_zero :
    vdp_presentation_queue_create sample_registry true true 1 2 true =
      (VDP_STATUS_OK, sample_registry ++ [some (Object.queue sample_queue)], some 7) ∧
    vdp_presentation_queue_get_background_color
        (sample_registry ++ [some (Object.queue sample_queue)]) 7 true =
      (VDP_STATUS_OK, some ⟨0, 0, 0, 0⟩) ∧
    vdp_presentation_queue_get_background_color
        (sample_registry ++ [some (Object.queue sample_queue)]) 7 true ≠
      (VDP_STATUS_OK, some ⟨0, 0, 0, 1⟩) := by
  decide

/-- C10, amended: for every queue returned by a successful
`vdp_presentation_queue_create`, `vdp_presentation_queue_get_background_color`
called before any `SetBackgroundColor` returns `OK` with red = green = blue = 0
and alpha = 0, the zero-filled context. -/
theorem queue_default_background (ht ht1 : Registry) (calloc_ok handle_ok : Bool)
    (device target qh : Nat)
    (hcreate : vdp_presentation_queue_create ht calloc_ok handle_ok device target true =
      (VDP_STATUS_OK, ht1, some qh)) :
    vdp_presentation_queue_get_background_color ht1 qh true =
      (VDP_STATUS_OK, some ⟨0, 0, 0, 0⟩) := by
  unfold vdp_presentation_queue_create at hcreate
  simp only [Bool.true_eq_false, if_false] at hcreate
  split at hcreate
  · split at hcreate
    · split at hcreate
      · cases hcreate
      · split at hcreate
        · cases hcreate
        · rename_i hc
          cases hcreate
          have hg := handle_get_create hc
          simp [vdp_presentation_queue_get_background_color, hg]
    · cases hcreate
  · cases hcreate

/-- C10, amended, at a concrete input: the queue created on the sample
registry. -/
theorem queue_default_background_witness :
    vdp_presentation_queue_get_background_color
        (sample_registry ++ [some (Object.queue sample_queue)]) 7 true =
      (VDP_STATUS_OK, some ⟨0, 0, 0, 0⟩) :=
  queue_default_background sample_registry _ true true 1 2 7 (by decide)

/-! ## Memory safety of the two writers -/

theorem put_bits_row_some_iff (palette src : Nat → Nat) :
    ∀ (n d s : Nat) (buf : List Nat),
      (put_bits_row palette src n d s buf).isSome = true ↔ (n = 0 ∨ d + n ≤ buf.length) := by
  intro n
  induction n with
  | zero => intro d s buf; simp [put_bits_row]
  | succ n ih =>
    intro d s buf
    by_cases hd : d < buf.length
    · have h := ih (d + 1) (s + 2)
        ((buf.set d (u32 (palette (u8 (src s))) &&& 0x00ffffff)).set d
          ((u32 (palette (u8 (src s))) &&& 0x00ffffff) ||| u32 (u8 (src (s + 1)) <<< 24)))
      simp only [List.length_set] at h
      simp only [put_bits_row, store, load, hd, if_true, List.length_set,
        List.getElem?_set_self hd]
      rw [h]
      omega
    · simp only [put_bits_row, store, hd, if_false, Option.isSome_none]
      constructor
      · intro h; cases h
      · intro h; omega

theorem memcpy_cells_some_iff (src : List Nat) :
    ∀ (n : Nat) (dst : List Nat) (d s : Nat),
      (memcpy_cells src n dst d s).isSome = true ↔
        (n = 0 ∨ (s + n ≤ src.length ∧ d + n ≤ dst.length)) := by
  intro n
  induction n with
  | zero => intro dst d s; simp [memcpy_cells]
  | succ n ih =>
    intro dst d s
    by_cases hs : s < src.length
    · by_cases hd : d < dst.length
      · have h := ih (dst.set d src[s]) (d + 1) (s + 1)
        simp only [List.length_set] at h
        simp only [memcpy_cells, load, store, List.getElem?_eq_getElem hs, hd, if_true]
        rw [h]
        omega
      · simp only [memcpy_cells, load, store, List.getElem?_eq_getElem hs, hd, if_false,
          Option.isSome_none]
        constructor
        · intro h; cases h
        · intro h; omega
    · have hn : src[s]? = none := List.getElem?_eq_none (by omega)
      simp only [memcpy_cells, load, hn, Option.isSome_none]
      constructor
      · intro h; cases h
      · intro h; omega


theorem rect_index_lt {W H x0 x1 y0 y1 i j : Nat} (hx1 : x1 < W) (hy1 : y1 < H)
    (hi : i < y1 - y0) (hj : j < x1 - x0) : (y0 + i) * W + (x0 + j) < W * H := by
  have h2 : (y0 + i + 1) * W ≤ H * W := Nat.mul_le_mul_right W (by omega)
  rw [Nat.succ_mul] at h2
  rw [Nat.mul_comm W H]
  omega

theorem alloc_if_absent_cases (ok : Bool) {data : Option (List Nat)} {W H : Nat}
    (hW : W < 16384) (hdata : ∀ buf, data = some buf → buf.length = W * H) :
    alloc_if_absent ok data W H = none ∨
      ∃ b0, alloc_if_absent ok data W H = some b0 ∧ b0.length = W * H := by
  cases hd : data with
  | some b => exact Or.inr ⟨b, rfl, hdata b hd⟩
  | none =>
    cases ok with
    | false => exact Or.inl (by simp [alloc_if_absent, calloc_cells])
    | true => exact Or.inr ⟨_, calloc_cells_eq hW, by simp⟩

theorem clear_if_flagged_some {data : Option (List Nat)} (data_clear : Nat) {W H : Nat}
    (hW : W < 16384) (hH : H < 16384) (hdata : ∀ buf, data = some buf → buf.length = W * H) :
    ∃ d1, clear_if_flagged data data_clear W H = some d1 ∧
      ∀ buf, d1 = some buf → buf.length = W * H := by
  cases hd : data with
  | none => exact ⟨none, rfl, fun _ h => by cases h⟩
  | some b =>
    by_cases hc : data_clear = 0
    · refine ⟨some b, by simp [clear_if_flagged, hc], ?_⟩
      intro buf h
      cases h
      exact hdata b hd
    · refine ⟨some (List.replicate (W * H) 0), ?_, ?_⟩
      · simp [clear_if_flagged, hc, memset_zero_all hW hH (hdata b hd)]
      · intro buf h
        cases h
        simp

theorem render_rows_total (w Wi Wo : Nat) (same : Bool) (src : List Nat) (hwo : w ≤ Wo)
    (hwi : w ≤ Wi) (hw : w < 16384) :
    ∀ (n d s : Nat) (dst : List Nat), d + n * Wo ≤ dst.length →
      s + n * Wi ≤ (if same = true then dst.length else src.length) →
      ∃ buf1, render_rows w Wi Wo same src n d s dst = some buf1 ∧
        buf1.length = dst.length := by
  have ecells : u32 (w * 4) / 4 = w := by
    rw [u32_eq (by omega)]; omega
  intro n
  induction n with
  | zero =>
    intro d s dst _ _
    exact ⟨dst, by simp [render_rows], rfl⟩
  | succ n ih =>
    intro d s dst hd hs
    have hmo : (n + 1) * Wo = n * Wo + Wo := Nat.succ_mul n Wo
    have hmi : (n + 1) * Wi = n * Wi + Wi := Nat.succ_mul n Wi
    have hsrc : s + w ≤ (if same = true then dst else src).length := by
      cases same
      · simp only [Bool.false_eq_true, if_false] at hs ⊢
        omega
      · simp only [if_true] at hs ⊢
        omega
    obtain ⟨bufr, r1, r2, _⟩ :=
      memcpy_cells_spec (if same = true then dst else src) w dst d s hsrc (by omega)
    have hs1 : s + Wi + n * Wi ≤ (if same = true then bufr.length else src.length) := by
      cases same
      · simp only [Bool.false_eq_true, if_false] at hs ⊢
        omega
      · simp only [if_true] at hs ⊢
        omega
    obtain ⟨buf1, h1, h2⟩ := ih (d + Wo) (s + Wi) bufr (by rw [r2]; omega) hs1
    refine ⟨buf1, ?_, by rw [h2, r2]⟩
    simp only [render_rows, ecells, r1]
    exact h1

theorem put_bits_indexed_total (ht : Registry) (calloc_ok : Bool) (surface : Nat)
    (out : output_surface_ctx_t) (source_indexed_format color_table_format : Nat)
    (src palette : Nat → Nat) (pitch : Nat) (rect : VdpRect)
    (hreg : handle_get ht surface = some (Object.output_surface out))
    (hok : surface_ok out) (hrect : valid_rect rect out = true)
    (hp32 : pitch < 4294967296) (hpitch : 2 * (rect.x1 - rect.x0) ≤ pitch) :
    ∃ st ht1 out1,
      vdp_output_surface_put_bits_indexed ht calloc_ok surface source_indexed_format src pitch
          rect color_table_format palette = some (st, ht1) ∧
      (st = VDP_STATUS_OK ∨ st = VDP_STATUS_RESOURCES) ∧
      handle_get ht1 surface = some (Object.output_surface out1) ∧
      surface_ok out1 ∧ out1.width = out.width ∧ out1.height = out.height := by
  have hv := hrect
  simp only [valid_rect, Bool.and_eq_true, decide_eq_true_eq] at hv
  obtain ⟨⟨⟨hx, hy⟩, hx1⟩, hy1⟩ := hv
  obtain ⟨hW0, hW, hH0, hH, hdata⟩ := hok
  have ew : sub32 rect.x1 rect.x0 = rect.x1 - rect.x0 := sub32_eq hx (by omega)
  have eh : sub32 rect.y1 rect.y0 = rect.y1 - rect.y0 := sub32_eq hy (by omega)
  have ed : u32 (rect.y0 * out.width + rect.x0) = rect.y0 * out.width + rect.x0 :=
    u32_eq (rect_offset_lt hW (by omega) (by omega))
  have es : sub32 out.width (rect.x1 - rect.x0) = out.width - (rect.x1 - rect.x0) :=
    sub32_eq (by omega) (by omega)
  have e2w : u32 (2 * (rect.x1 - rect.x0)) = 2 * (rect.x1 - rect.x0) := u32_eq (by omega)
  have ep : sub32 pitch (2 * (rect.x1 - rect.x0)) = pitch - 2 * (rect.x1 - rect.x0) :=
    sub32_eq hpitch hp32
  unfold vdp_output_surface_put_bits_indexed
  simp only [hreg, hrect, Bool.true_eq_false, if_false]
  by_cases hf : out.rgba_format ≠ VDP_RGBA_FORMAT_B8G8R8A8 ∨
      source_indexed_format ≠ VDP_INDEXED_FORMAT_I8A8 ∨
      color_table_format ≠ VDP_COLOR_TABLE_FORMAT_B8G8R8X8
  · rw [if_pos hf]
    exact ⟨VDP_STATUS_OK, ht, out, rfl, Or.inl rfl, hreg, ⟨hW0, hW, hH0, hH, hdata⟩, rfl, rfl⟩
  · rw [if_neg hf]
    rcases alloc_if_absent_cases calloc_ok hW hdata with hnone | ⟨b0, hb0, hlen0⟩
    · rw [hnone]
      exact ⟨VDP_STATUS_RESOURCES, ht, out, rfl, Or.inr rfl, hreg,
        ⟨hW0, hW, hH0, hH, hdata⟩, rfl, rfl⟩
    · obtain ⟨buf, h1, h2, _, _⟩ :=
        put_bits_rows_spec palette src (rect.x1 - rect.x0) out.width pitch (by omega) hpitch
          (rect.y1 - rect.y0) (rect.y0 * out.width + rect.x0) 0 b0
          (by rw [hlen0]; exact rect_rows_fit hy hy1 (by omega))
      rw [hb0]
      simp only [ew, eh, ed, es, e2w, ep, Nat.not_lt.mpr hpitch, if_false, h1]
      refine ⟨VDP_STATUS_OK, _, _, rfl, Or.inl rfl, handle_get_set_self _ hreg,
        ⟨hW0, hW, hH0, hH, ?_⟩, rfl, rfl⟩
      intro b hb
      cases hb
      rw [h2, hlen0]


theorem render_output_surface_total (ht : Registry) (calloc_ok : Bool)
    (dst_handle src_handle : Nat) (out inp : output_surface_ctx_t) (drect srect : VdpRect)
    (colors : Option VdpColor) (blend_state : Option Nat) (flags : Nat)
    (hdst : handle_get ht dst_handle = some (Object.output_surface out))
    (hsrc : handle_get ht src_handle = some (Object.output_surface inp))
    (hok_out : surface_ok out) (hok_in : surface_ok inp)
    (hdrect : valid_rect drect out = true) (hsrect : valid_rect srect inp = true) :
    ∃ st ht1 out1 inp1,
      vdp_output_surface_render_output_surface ht calloc_ok dst_handle (some drect) src_handle
          (some srect) colors blend_state flags = some (st, ht1) ∧
      (st = VDP_STATUS_OK ∨ st = VDP_STATUS_RESOURCES) ∧
      handle_get ht1 dst_handle = some (Object.output_surface out1) ∧
      surface_ok out1 ∧ out1.width = out.width ∧ out1.height = out.height ∧
      handle_get ht1 src_handle = some (Object.output_surface inp1) ∧
      surface_ok inp1 ∧ inp1.width = inp.width ∧ inp1.height = inp.height := by
  have hvd := hdrect
  simp only [valid_rect, Bool.and_eq_true, decide_eq_true_eq] at hvd
  obtain ⟨⟨⟨hdx, hdy⟩, hdx1⟩, hdy1⟩ := hvd
  have hvs := hsrect
  simp only [valid_rect, Bool.and_eq_true, decide_eq_true_eq] at hvs
  obtain ⟨⟨⟨hsx, hsy⟩, hsx1⟩, hsy1⟩ := hvs
  have hok_out1 := hok_out
  have hok_in1 := hok_in
  obtain ⟨hW0, hW, hH0, hH, hdata⟩ := hok_out
  obtain ⟨hWi0, hWi, hHi0, hHi, hdatai⟩ := hok_in
  have ew0 : sub32 drect.x1 drect.x0 = drect.x1 - drect.x0 := sub32_eq hdx (by omega)
  have ews : sub32 srect.x1 srect.x0 = srect.x1 - srect.x0 := sub32_eq hsx (by omega)
  have eh0 : sub32 drect.y1 drect.y0 = drect.y1 - drect.y0 := sub32_eq hdy (by omega)
  have ehs : sub32 srect.y1 srect.y0 = srect.y1 - srect.y0 := sub32_eq hsy (by omega)
  have ed : u32 (drect.y0 * out.width + drect.x0) = drect.y0 * out.width + drect.x0 :=
    u32_eq (rect_offset_lt hW (by omega) (by omega))
  have es : u32 (srect.y0 * inp.width + srect.x0) = srect.y0 * inp.width + srect.x0 :=
    u32_eq (rect_offset_lt hWi (by omega) (by omega))
  have ew : (if srect.x1 - srect.x0 < drect.x1 - drect.x0 then srect.x1 - srect.x0
      else drect.x1 - drect.x0) = min (drect.x1 - drect.x0) (srect.x1 - srect.x0) := by
    split <;> omega
  have eh : (if srect.y1 - srect.y0 < drect.y1 - drect.y0 then srect.y1 - srect.y0
      else drect.y1 - drect.y0) = min (drect.y1 - drect.y0) (srect.y1 - srect.y0) := by
    split <;> omega
  unfold vdp_output_surface_render_output_surface
  simp only [hdst, hsrc, handle_get_ne_invalid hsrc, hdrect, hsrect, if_false,
    Bool.true_eq_false]
  by_cases hf : out.rgba_format ≠ VDP_RGBA_FORMAT_B8G8R8A8
  · rw [if_pos hf]
    exact ⟨VDP_STATUS_OK, ht, out, inp, rfl, Or.inl rfl, hdst, hok_out1, rfl, rfl, hsrc,
      hok_in1, rfl, rfl⟩
  · rw [if_neg hf]
    cases hin : inp.data with
    | none =>
      exact ⟨VDP_STATUS_OK, ht, out, inp, rfl, Or.inl rfl, hdst, hok_out1, rfl, rfl, hsrc,
        hok_in1, rfl, rfl⟩
    | some in_buf =>
      have hleni : in_buf.length = inp.width * inp.height := hdatai in_buf hin
      obtain ⟨d1, hclr, hd1⟩ := clear_if_flagged_some out.data_clear hW hH hdata
      simp only [hclr]
      rcases alloc_if_absent_cases calloc_ok hW hd1 with hnone | ⟨b0, hb0, hlen0⟩
      · rw [hnone]
        exact ⟨VDP_STATUS_RESOURCES, ht, out, inp, rfl, Or.inr rfl, hdst, hok_out1, rfl, rfl,
          hsrc, hok_in1, rfl, rfl⟩
      · have hfitd : drect.y0 * out.width + drect.x0 +
            min (drect.y1 - drect.y0) (srect.y1 - srect.y0) * out.width ≤ b0.length := by
          have h1 := rect_rows_fit (W := out.width) (H := out.height) hdy hdy1
            (by omega : drect.x0 < out.width)
          have h2 : min (drect.y1 - drect.y0) (srect.y1 - srect.y0) * out.width
              ≤ (drect.y1 - drect.y0) * out.width :=
            Nat.mul_le_mul_right _ (Nat.min_le_left _ _)
          omega
        have hfits : srect.y0 * inp.width + srect.x0 +
            min (drect.y1 - drect.y0) (srect.y1 - srect.y0) * inp.width
              ≤ inp.width * inp.height := by
          have h1 := rect_rows_fit (W := inp.width) (H := inp.height) hsy hsy1
            (by omega : srect.x0 < inp.width)
          have h2 : min (drect.y1 - drect.y0) (srect.y1 - srect.y0) * inp.width
              ≤ (srect.y1 - srect.y0) * inp.width :=
            Nat.mul_le_mul_right _ (Nat.min_le_right _ _)
          omega
        have hsame : src_handle = dst_handle → inp = out := by
          intro e
          rw [e, hdst] at hsrc
          cases hsrc
          rfl
        have hsrc_len : srect.y0 * inp.width + srect.x0 +
            min (drect.y1 - drect.y0) (srect.y1 - srect.y0) * inp.width ≤
            (if decide (src_handle = dst_handle) = true then b0.length else in_buf.length) := by
          by_cases e : src_handle = dst_handle
          · simp only [e, decide_True, if_true]
            rw [hlen0, ← hsame e]
            exact hfits
          · simp only [e, decide_False, Bool.false_eq_true, if_false]
            rw [hleni]
            exact hfits
        obtain ⟨buf, h1, h2⟩ :=
          render_rows_total (min (drect.x1 - drect.x0) (srect.x1 - srect.x0)) inp.width
            out.width (decide (src_handle = dst_handle)) in_buf (by omega) (by omega) (by omega)
            (min (drect.y1 - drect.y0) (srect.y1 - srect.y0))
            (drect.y0 * out.width + drect.x0) (srect.y0 * inp.width + srect.x0) b0 hfitd
            hsrc_len
        have hok_new : surface_ok { out with data := some buf, data_clear := 0 } := by
          refine ⟨hW0, hW, hH0, hH, ?_⟩
          intro b hb
          cases hb
          rw [h2, hlen0]
        rw [hb0]
        simp only [ew0, ews, eh0, ehs, ed, es, ew, eh, h1]
        by_cases e : src_handle = dst_handle
        · have hio := hsame e
          refine ⟨VDP_STATUS_OK, _, _, { out with data := some buf, data_clear := 0 }, rfl,
            Or.inl rfl, handle_get_set_self _ hdst, hok_new, rfl, rfl, ?_, hok_new, ?_, ?_⟩
          · rw [e]
            exact handle_get_set_self _ hdst
          · rw [hio]
          · rw [hio]
        · exact ⟨VDP_STATUS_OK, _, _, inp, rfl, Or.inl rfl, handle_get_set_self _ hdst,
            hok_new, rfl, rfl,
            handle_get_set_ne _ hsrc (fun h => e h.symm) (handle_get_ne_zero hdst), hok_in1,
            rfl, rfl⟩

/-- C11: destination writes stay inside the pixel buffer.  For registered
surfaces with `0 < width, height < 16384` whose buffer, when present, has
exactly `width * height` cells, a destination rectangle accepted by
`valid_rect`, a 32-bit source pitch of at least `2 * w`, and a source rectangle
accepted by `valid_rect` on the source surface (which may be the destination
itself):
* none of the 32-bit index and size computations of
  `vdp_output_surface_put_bits_indexed` and
  `vdp_output_surface_render_output_surface` wraps around;
* every cell index written by the indexed copy, and every destination index
  written and source index read by the surface copy, is strictly below
  `width * height` of its surface;
* the cell loops of the embedding fault exactly when an index they touch lies
  outside the buffer, and both operations return a result, so the fault is
  never reached;
* after either operation both surfaces still satisfy the invariant, the
  buffer length staying `width * height`. -/
theorem writes_stay_inside_buffer (ht : Registry) (calloc_ok : Bool)
    (dst_handle src_handle : Nat) (out inp : output_surface_ctx_t) (drect srect : VdpRect)
    (source_indexed_format color_table_format : Nat) (src palette : Nat → Nat) (pitch : Nat)
    (colors : Option VdpColor) (blend_state : Option Nat) (flags : Nat)
    (hdst : handle_get ht dst_handle = some (Object.output_surface out))
    (hsrc : handle_get ht src_handle = some (Object.output_surface inp))
    (hok_out : surface_ok out) (hok_in : surface_ok inp)
    (hdrect : valid_rect drect out = true) (hsrect : valid_rect srect inp = true)
    (hp32 : pitch < 4294967296) (hpitch : 2 * (drect.x1 - drect.x0) ≤ pitch) :
    (sub32 drect.x1 drect.x0 = drect.x1 - drect.x0 ∧
      sub32 drect.y1 drect.y0 = drect.y1 - drect.y0 ∧
      sub32 srect.x1 srect.x0 = srect.x1 - srect.x0 ∧
      sub32 srect.y1 srect.y0 = srect.y1 - srect.y0 ∧
      u32 (drect.y0 * out.width + drect.x0) = drect.y0 * out.width + drect.x0 ∧
      u32 (srect.y0 * inp.width + srect.x0) = srect.y0 * inp.width + srect.x0 ∧
      sub32 out.width (drect.x1 - drect.x0) = out.width - (drect.x1 - drect.x0) ∧
      u32 (2 * (drect.x1 - drect.x0)) = 2 * (drect.x1 - drect.x0) ∧
      sub32 pitch (2 * (drect.x1 - drect.x0)) = pitch - 2 * (drect.x1 - drect.x0) ∧
      u32 (min (drect.x1 - drect.x0) (srect.x1 - srect.x0) * 4) =
        min (drect.x1 - drect.x0) (srect.x1 - srect.x0) * 4 ∧
      u32 (out.width * 4) = out.width * 4 ∧
      u32 (out.width * 4 * out.height) = out.width * 4 * out.height) ∧
    (∀ i, i < drect.y1 - drect.y0 → ∀ j, j < drect.x1 - drect.x0 →
      (drect.y0 + i) * out.width + (drect.x0 + j) < out.width * out.height) ∧
    (∀ i, i < min (drect.y1 - drect.y0) (srect.y1 - srect.y0) →
      ∀ j, j < min (drect.x1 - drect.x0) (srect.x1 - srect.x0) →
        (drect.y0 + i) * out.width + (drect.x0 + j) < out.width * out.height ∧
        (srect.y0 + i) * inp.width + (srect.x0 + j) < inp.width * inp.height) ∧
    (∀ (n d s : Nat) (buf : List Nat),
      (put_bits_row palette src n d s buf).isSome = true ↔ (n = 0 ∨ d + n ≤ buf.length)) ∧
    (∀ (from_buf : List Nat) (n : Nat) (to_buf : List Nat) (d s : Nat),
      (memcpy_cells from_buf n to_buf d s).isSome = true ↔
        (n = 0 ∨ (s + n ≤ from_buf.length ∧ d + n ≤ to_buf.length))) ∧
    (∃ st ht1 out1,
      vdp_output_surface_put_bits_indexed ht calloc_ok dst_handle source_indexed_format src pitch
          drect color_table_format palette = some (st, ht1) ∧
      (st = VDP_STATUS_OK ∨ st = VDP_STATUS_RESOURCES) ∧
      handle_get ht1 dst_handle = some (Object.output_surface out1) ∧
      surface_ok out1 ∧ out1.width = out.width ∧ out1.height = out.height) ∧
    (∃ st ht1 out1 inp1,
      vdp_output_surface_render_output_surface ht calloc_ok dst_handle (some drect) src_handle
          (some srect) colors blend_state flags = some (st, ht1) ∧
      (st = VDP_STATUS_OK ∨ st = VDP_STATUS_RESOURCES) ∧
      handle_get ht1 dst_handle = some (Object.output_surface out1) ∧
      surface_ok out1 ∧ out1.width = out.width ∧ out1.height = out.height ∧
      handle_get ht1 src_handle = some (Object.output_surface inp1) ∧
      surface_ok inp1 ∧ inp1.width = inp.width ∧ inp1.height = inp.height) := by
  have hvd := hdrect
  simp only [valid_rect, Bool.and_eq_true, decide_eq_true_eq] at hvd
  obtain ⟨⟨⟨hdx, hdy⟩, hdx1⟩, hdy1⟩ := hvd
  have hvs := hsrect
  simp only [valid_rect, Bool.and_eq_true, decide_eq_true_eq] at hvs
  obtain ⟨⟨⟨hsx, hsy⟩, hsx1⟩, hsy1⟩ := hvs
  obtain ⟨hW0, hW, hH0, hH, _⟩ := hok_out
  obtain ⟨hWi0, hWi, hHi0, hHi, _⟩ := hok_in
  have hcells := mul_lt_16384 hW hH
  have e4 : out.width * 4 * out.height = out.width * out.height * 4 :=
    Nat.mul_right_comm out.width 4 out.height
  refine ⟨⟨sub32_eq hdx (by omega), sub32_eq hdy (by omega), sub32_eq hsx (by omega),
    sub32_eq hsy (by omega), u32_eq (rect_offset_lt hW (by omega) (by omega)),
    u32_eq (rect_offset_lt hWi (by omega) (by omega)), sub32_eq (by omega) (by omega),
    u32_eq (by omega), sub32_eq hpitch hp32, u32_eq (by omega), u32_eq (by omega),
    u32_eq (by omega)⟩, ?_, ?_, put_bits_row_some_iff palette src, memcpy_cells_some_iff,
    put_bits_indexed_total ht calloc_ok dst_handle out source_indexed_format color_table_format
      src palette pitch drect hdst ⟨hW0, hW, hH0, hH, by assumption⟩ hdrect hp32 hpitch,
    render_output_surface_total ht calloc_ok dst_handle src_handle out inp drect srect colors
      blend_state flags hdst hsrc ⟨hW0, hW, hH0, hH, by assumption⟩
      ⟨hWi0, hWi, hHi0, hHi, by assumption⟩ hdrect hsrect⟩
  · intro i hi j hj
    exact rect_index_lt hdx1 hdy1 hi hj
  · intro i hi j hj
    exact ⟨rect_index_lt hdx1 hdy1 (by omega) (by omega),
      rect_index_lt hsx1 hsy1 (by omega) (by omega)⟩

/-- C11 at a concrete input: the indexed copy into rectangle `(0, 0, 2, 2)` of
the fresh 3 by 3 sample surface, and the copy of source rectangle
`(1, 1, 2, 2)` of the populated sample surface into it. -/
theorem writes_stay_inside_buffer_witness :
    (sub32 (⟨0, 0, 2, 2⟩ : VdpRect).x1 (⟨0, 0, 2, 2⟩ : VdpRect).x0 = (⟨0, 0, 2, 2⟩ : VdpRect).x1 - (⟨0, 0, 2, 2⟩ : VdpRect).x0 ∧
      sub32 (⟨0, 0, 2, 2⟩ : VdpRect).y1 (⟨0, 0, 2, 2⟩ : VdpRect).y0 = (⟨0, 0, 2, 2⟩ : VdpRect).y1 - (⟨0, 0, 2, 2⟩ : VdpRect).y0 ∧
      sub32 (⟨1, 1, 2, 2⟩ : VdpRect).x1 (⟨1, 1, 2, 2⟩ : VdpRect).x0 = (⟨1, 1, 2, 2⟩ : VdpRect).x1 - (⟨1, 1, 2, 2⟩ : VdpRect).x0 ∧
      sub32 (⟨1, 1, 2, 2⟩ : VdpRect).y1 (⟨1, 1, 2, 2⟩ : VdpRect).y0 = (⟨1, 1, 2, 2⟩ : VdpRect).y1 - (⟨1, 1, 2, 2⟩ : VdpRect).y0 ∧
      u32 ((⟨0, 0, 2, 2⟩ : VdpRect).y0 * sample_surface.width + (⟨0, 0, 2, 2⟩ : VdpRect).x0) = (⟨0, 0, 2, 2⟩ : VdpRect).y0 * sample_surface.width + (⟨0, 0, 2, 2⟩ : VdpRect).x0 ∧
      u32 ((⟨1, 1, 2, 2⟩ : VdpRect).y0 * sample_source_surface.width + (⟨1, 1, 2, 2⟩ : VdpRect).x0) = (⟨1, 1, 2, 2⟩ : VdpRect).y0 * sample_source_surface.width + (⟨1, 1, 2, 2⟩ : VdpRect).x0 ∧
      sub32 sample_surface.width ((⟨0, 0, 2, 2⟩ : VdpRect).x1 - (⟨0, 0, 2, 2⟩ : VdpRect).x0) = sample_surface.width - ((⟨0, 0, 2, 2⟩ : VdpRect).x1 - (⟨0, 0, 2, 2⟩ : VdpRect).x0) ∧
      u32 (2 * ((⟨0, 0, 2, 2⟩ : VdpRect).x1 - (⟨0, 0, 2, 2⟩ : VdpRect).x0)) = 2 * ((⟨0, 0, 2, 2⟩ : VdpRect).x1 - (⟨0, 0, 2, 2⟩ : VdpRect).x0) ∧
      sub32 8 (2 * ((⟨0, 0, 2, 2⟩ : VdpRect).x1 - (⟨0, 0, 2, 2⟩ : VdpRect).x0)) = 8 - 2 * ((⟨0, 0, 2, 2⟩ : VdpRect).x1 - (⟨0, 0, 2, 2⟩ : VdpRect).x0) ∧
      u32 (min ((⟨0, 0, 2, 2⟩ : VdpRect).x1 - (⟨0, 0, 2, 2⟩ : VdpRect).x0) ((⟨1, 1, 2, 2⟩ : VdpRect).x1 - (⟨1, 1, 2, 2⟩ : VdpRect).x0) * 4) =
        min ((⟨0, 0, 2, 2⟩ : VdpRect).x1 - (⟨0, 0, 2, 2⟩ : VdpRect).x0) ((⟨1, 1, 2, 2⟩ : VdpRect).x1 - (⟨1, 1, 2, 2⟩ : VdpRect).x0) * 4 ∧
      u32 (sample_surface.width * 4) = sample_surface.width * 4 ∧
      u32 (sample_surface.width * 4 * sample_surface.height) = sample_surface.width * 4 * sample_surface.height) ∧
    (∀ i, i < (⟨0, 0, 2, 2⟩ : VdpRect).y1 - (⟨0, 0, 2, 2⟩ : VdpRect).y0 → ∀ j, j < (⟨0, 0, 2, 2⟩ : VdpRect).x1 - (⟨0, 0, 2, 2⟩ : VdpRect).x0 →
      ((⟨0, 0, 2, 2⟩ : VdpRect).y0 + i) * sample_surface.width + ((⟨0, 0, 2, 2⟩ : VdpRect).x0 + j) < sample_surface.width * sample_surface.height) ∧
    (∀ i, i < min ((⟨0, 0, 2, 2⟩ : VdpRect).y1 - (⟨0, 0, 2, 2⟩ : VdpRect).y0) ((⟨1, 1, 2, 2⟩ : VdpRect).y1 - (⟨1, 1, 2, 2⟩ : VdpRect).y0) →
      ∀ j, j < min ((⟨0, 0, 2, 2⟩ : VdpRect).x1 - (⟨0, 0, 2, 2⟩ : VdpRect).x0) ((⟨1, 1, 2, 2⟩ : VdpRect).x1 - (⟨1, 1, 2, 2⟩ : VdpRect).x0) →
        ((⟨0, 0, 2, 2⟩ : VdpRect).y0 + i) * sample_surface.width + ((⟨0, 0, 2, 2⟩ : VdpRect).x0 + j) < sample_surface.width * sample_surface.height ∧
        ((⟨1, 1, 2, 2⟩ : VdpRect).y0 + i) * sample_source_surface.width + ((⟨1, 1, 2, 2⟩ : VdpRect).x0 + j) < sample_source_surface.width * sample_source_surface.height) ∧
    (∀ (n d s : Nat) (buf : List Nat),
      (put_bits_row sample_color_table sample_indexed_source n d s buf).isSome = true ↔ (n = 0 ∨ d + n ≤ buf.length)) ∧
    (∀ (from_buf : List Nat) (n : Nat) (to_buf : List Nat) (d s : Nat),
      (memcpy_cells from_buf n to_buf d s).isSome = true ↔
        (n = 0 ∨ (s + n ≤ from_buf.length ∧ d + n ≤ to_buf.length))) ∧
    (∃ st ht1 out1,
      vdp_output_surface_put_bits_indexed sample_registry true 4 VDP_INDEXED_FORMAT_I8A8 sample_indexed_source 8
          (⟨0, 0, 2, 2⟩ : VdpRect) VDP_COLOR_TABLE_FORMAT_B8G8R8X8 sample_color_table = some (st, ht1) ∧
      (st = VDP_STATUS_OK ∨ st = VDP_STATUS_RESOURCES) ∧
      handle_get ht1 4 = some (Object.output_surface out1) ∧
      surface_ok out1 ∧ out1.width = sample_surface.width ∧ out1.height = sample_surface.height) ∧
    (∃ st ht1 out1 inp1,
      vdp_output_surface_render_output_surface sample_registry true 4 (some (⟨0, 0, 2, 2⟩ : VdpRect)) 5
          (some (⟨1, 1, 2, 2⟩ : VdpRect)) none none 0 = some (st, ht1) ∧
      (st = VDP_STATUS_OK ∨ st = VDP_STATUS_RESOURCES) ∧
      handle_get ht1 4 = some (Object.output_surface out1) ∧
      surface_ok out1 ∧ out1.width = sample_surface.width ∧ out1.height = sample_surface.height ∧
      handle_get ht1 5 = some (Object.output_surface inp1) ∧
      surface_ok inp1 ∧ inp1.width = sample_source_surface.width ∧ inp1.height = sample_source_surface.height) :=
  writes_stay_inside_buffer sample_registry true 4 5 sample_surface sample_source_surface
    ⟨0, 0, 2, 2⟩ ⟨1, 1, 2, 2⟩ VDP_INDEXED_FORMAT_I8A8 VDP_COLOR_TABLE_FORMAT_B8G8R8X8
    sample_indexed_source sample_color_table 8 none none 0 (by decide) (by decide)
    sample_surface_ok sample_source_surface_ok (by decide) (by decide) (by decide) (by decide)

/-! ## The two copy paths, observed through the registry -/

theorem handle_get_set_other (ht : Registry) (h h1 : Nat) (o1 : Object) (hne : h ≠ h1)
    (h10 : h1 ≠ 0) : handle_get (handle_set ht h1 o1) h = handle_get ht h := by
  unfold handle_get
  by_cases hc : h = VDP_INVALID_HANDLE ∨ h = 0
  · rw [if_pos hc, if_pos hc]
  · rw [if_neg hc, if_neg hc]
    have hidx : h1 - 1 ≠ h - 1 := by
      intro e
      apply hc
      right
      omega
    simp [handle_set, List.getD_eq_getElem?_getD, List.getElem?_set_ne hidx]

theorem alloc_if_absent_refused (W H : Nat) : alloc_if_absent false none W H = none := by
  simp [alloc_if_absent, calloc_cells]

/-- C1, as stated, fails: on the fresh sample surface (no pixel buffer) with
the supported formats, the valid rectangle `(0, 0, 2, 2)` and pitch 8, a
refused allocation makes the call return `Resources`, not `OK`, and the
registry is unchanged. -/
theorem put_bits_indexed_alloc_refused :
    handle_get sample_registry 4 = some (Object.output_surface sample_surface) ∧
    sample_surface.rgba_format = VDP_RGBA_FORMAT_B8G8R8A8 ∧
    valid_rect ⟨0, 0, 2, 2⟩ sample_surface = true ∧ 2 * (2 - 0) ≤ 8 ∧
    vdp_output_surface_put_bits_indexed sample_registry false 4 VDP_INDEXED_FORMAT_I8A8
        sample_indexed_source 8 ⟨0, 0, 2, 2⟩ VDP_COLOR_TABLE_FORMAT_B8G8R8X8 sample_color_table
      = some (VDP_STATUS_RESOURCES, sample_registry) ∧
    (vdp_output_surface_put_bits_indexed sample_registry false 4 VDP_INDEXED_FORMAT_I8A8
        sample_indexed_source 8 ⟨0, 0, 2, 2⟩ VDP_COLOR_TABLE_FORMAT_B8G8R8X8
        sample_color_table).map Prod.fst ≠ some VDP_STATUS_OK := by
  decide

/-- C1, amended: `vdp_output_surface_put_bits_indexed` on the supported path
(surface B8G8R8A8, source I8A8, table B8G8R8X8), for a registered surface, a
rectangle with `x0 ≤ x1`, `y0 ≤ y1`, `x1 < width`, `y1 < height` and a 32-bit
source pitch of at least `2 * (x1 - x0)`.  If the surface has no pixel buffer
and the allocation is refused, the call returns `Resources` and changes
nothing.  Otherwise it returns `OK`, and afterwards the handle of the surface
resolves to the same context with `data_clear` cleared and a buffer of
`width * height` cells in which cell `(y0 + i) * width + (x0 + j)`, for
`i < y1 - y0` and `j < x1 - x0`, holds
`(palette[src[i * pitch + 2 * j]] & 0x00FFFFFF) | (src[i * pitch + 2 * j + 1] << 24)`
and every other cell keeps its previous value (zero for a buffer that was just
allocated); every other handle resolves as before. -/
theorem put_bits_indexed_supported (ht : Registry) (surface : Nat) (out : output_surface_ctx_t)
    (calloc_ok : Bool) (src : Nat → Nat) (pitch : Nat) (rect : VdpRect) (palette : Nat → Nat)
    (hreg : handle_get ht surface = some (Object.output_surface out))
    (hok : surface_ok out)
    (hfmt : out.rgba_format = VDP_RGBA_FORMAT_B8G8R8A8)
    (hrect : rect.x0 ≤ rect.x1 ∧ rect.y0 ≤ rect.y1 ∧ rect.x1 < out.width ∧ rect.y1 < out.height)
    (hp32 : pitch < 4294967296)
    (hpitch : 2 * (rect.x1 - rect.x0) ≤ pitch) :
    (out.data = none ∧ calloc_ok = false →
      vdp_output_surface_put_bits_indexed ht calloc_ok surface VDP_INDEXED_FORMAT_I8A8 src pitch
          rect VDP_COLOR_TABLE_FORMAT_B8G8R8X8 palette
        = some (VDP_STATUS_RESOURCES, ht)) ∧
    (¬ (out.data = none ∧ calloc_ok = false) →
      ∃ (ht1 : Registry) (buf : List Nat),
        vdp_output_surface_put_bits_indexed ht calloc_ok surface VDP_INDEXED_FORMAT_I8A8 src pitch
            rect VDP_COLOR_TABLE_FORMAT_B8G8R8X8 palette
          = some (VDP_STATUS_OK, ht1) ∧
        handle_get ht1 surface =
          some (Object.output_surface { out with data := some buf, data_clear := 0 }) ∧
        (∀ h, h ≠ surface → handle_get ht1 h = handle_get ht h) ∧
        buf.length = out.width * out.height ∧
        (∀ i, i < rect.y1 - rect.y0 → ∀ j, j < rect.x1 - rect.x0 →
          buf[(rect.y0 + i) * out.width + (rect.x0 + j)]? =
            some ((u32 (palette (u8 (src (i * pitch + 2 * j)))) &&& 0x00FFFFFF) |||
              u32 (u8 (src (i * pitch + 2 * j + 1)) <<< 24))) ∧
        (∀ k, (∀ i, i < rect.y1 - rect.y0 → ∀ j, j < rect.x1 - rect.x0 →
            k ≠ (rect.y0 + i) * out.width + (rect.x0 + j)) →
          buf[k]? = (out.data.getD (List.replicate (out.width * out.height) 0))[k]?)) := by
  constructor
  · intro hrefused
    obtain ⟨hd, hc⟩ := hrefused
    obtain ⟨hx, hy, hx1, hy1⟩ := hrect
    have hvalid : valid_rect rect out = true := by simp [valid_rect, hx, hy, hx1, hy1]
    have ha : alloc_if_absent calloc_ok out.data out.width out.height = none := by
      rw [hd, hc]
      exact alloc_if_absent_refused _ _
    unfold vdp_output_surface_put_bits_indexed
    simp only [hreg, hvalid, hfmt, ha, Bool.true_eq_false, if_false, ne_eq, not_true_eq_false,
      or_self]
  · intro hgranted
    have halloc : out.data = none → calloc_ok = true := by
      intro hd
      cases hc : calloc_ok
      · exact absurd ⟨hd, hc⟩ hgranted
      · rfl
    obtain ⟨buf, h1, h2, h3, h4⟩ :=
      put_bits_indexed_copy_run ht surface out calloc_ok src pitch rect palette hreg hok hfmt
        halloc hrect hp32 hpitch
    exact ⟨_, buf, h1, handle_get_set_self _ hreg,
      fun h hne => handle_get_set_other ht h surface _ hne (handle_get_ne_zero hreg), h2, h3,
      h4⟩

/-- C1, amended, at a concrete input: rectangle `(0, 0, 2, 2)` on a fresh 3 by
3 surface, index bytes 0, 1, 2, 3 each with alpha `0xFF`, pitch 8 and the table
`0xFF0000, 0x00FF00, 0x0000FF, 0xFFFFFF`, allocation granted.  The call returns
`OK` and handle 4 then resolves to the surface with the cells `0xFFFF0000`,
`0xFF00FF00`, `0xFF0000FF`, `0xFFFFFFFF` in row order. -/
theorem put_bits_indexed_supported_witness :
    (vdp_output_surface_put_bits_indexed sample_registry true 4 VDP_INDEXED_FORMAT_I8A8
        sample_indexed_source 8 ⟨0, 0, 2, 2⟩ VDP_COLOR_TABLE_FORMAT_B8G8R8X8
        sample_color_table).map (fun r => (r.1, handle_get r.2 4)) =
      some (VDP_STATUS_OK,
        some (Object.output_surface
          { sample_surface with
            data := some [0xFFFF0000, 0xFF00FF00, 0, 0xFF0000FF, 0xFFFFFFFF, 0, 0, 0, 0],
            data_clear := 0 })) ∧
    (sample_surface.data = none ∧ true = false →
      vdp_output_surface_put_bits_indexed sample_registry true 4 VDP_INDEXED_FORMAT_I8A8 sample_indexed_source 8
          (⟨0, 0, 2, 2⟩ : VdpRect) VDP_COLOR_TABLE_FORMAT_B8G8R8X8 sample_color_table
        = some (VDP_STATUS_RESOURCES, sample_registry)) ∧
    (¬ (sample_surface.data = none ∧ true = false) →
      ∃ (ht1 : Registry) (buf : List Nat),
        vdp_output_surface_put_bits_indexed sample_registry true 4 VDP_INDEXED_FORMAT_I8A8 sample_indexed_source 8
            (⟨0, 0, 2, 2⟩ : VdpRect) VDP_COLOR_TABLE_FORMAT_B8G8R8X8 sample_color_table
          = some (VDP_STATUS_OK, ht1) ∧
        handle_get ht1 4 =
          some (Object.output_surface { sample_surface with data := some buf, data_clear := 0 }) ∧
        (∀ h, h ≠ 4 → handle_get ht1 h = handle_get sample_registry h) ∧
        buf.length = sample_surface.width * sample_surface.height ∧
        (∀ i, i < (⟨0, 0, 2, 2⟩ : VdpRect).y1 - (⟨0, 0, 2, 2⟩ : VdpRect).y0 → ∀ j, j < (⟨0, 0, 2, 2⟩ : VdpRect).x1 - (⟨0, 0, 2, 2⟩ : VdpRect).x0 →
          buf[((⟨0, 0, 2, 2⟩ : VdpRect).y0 + i) * sample_surface.width + ((⟨0, 0, 2, 2⟩ : VdpRect).x0 + j)]? =
            some ((u32 (sample_color_table (u8 (sample_indexed_source (i * 8 + 2 * j)))) &&& 0x00FFFFFF) |||
              u32 (u8 (sample_indexed_source (i * 8 + 2 * j + 1)) <<< 24))) ∧
        (∀ k, (∀ i, i < (⟨0, 0, 2, 2⟩ : VdpRect).y1 - (⟨0, 0, 2, 2⟩ : VdpRect).y0 → ∀ j, j < (⟨0, 0, 2, 2⟩ : VdpRect).x1 - (⟨0, 0, 2, 2⟩ : VdpRect).x0 →
            k ≠ ((⟨0, 0, 2, 2⟩ : VdpRect).y0 + i) * sample_surface.width + ((⟨0, 0, 2, 2⟩ : VdpRect).x0 + j)) →
          buf[k]? = (sample_surface.data.getD (List.replicate (sample_surface.width * sample_surface.height) 0))[k]?)) :=
  ⟨by decide,
    put_bits_indexed_supported sample_registry 4 sample_surface true sample_indexed_source 8
      ⟨0, 0, 2, 2⟩ sample_color_table (by decide) sample_surface_ok (by decide)
      (by decide) (by decide) (by decide)⟩

/-- C4, as stated, fails: with the fresh sample surface (no pixel buffer) as
destination, the populated sample surface as source and both rectangles
valid, a refused allocation makes the call return `Resources`, not `OK`, and
the registry is unchanged. -/
theorem render_output_surface_alloc_refused :
    handle_get sample_registry 4 = some (Object.output_surface sample_surface) ∧
    handle_get sample_registry 5 = some (Object.output_surface sample_source_surface) ∧
    sample_surface.rgba_format = VDP_RGBA_FORMAT_B8G8R8A8 ∧
    sample_source_surface.data = some [1, 2, 3, 4, 5, 6, 7, 8, 9] ∧
    valid_rect ⟨0, 0, 2, 2⟩ sample_surface = true ∧
    valid_rect ⟨1, 1, 2, 2⟩ sample_source_surface = true ∧
    vdp_output_surface_render_output_surface sample_registry false 4 (some ⟨0, 0, 2, 2⟩) 5
        (some ⟨1, 1, 2, 2⟩) none none 0 = some (VDP_STATUS_RESOURCES, sample_registry) ∧
    (vdp_output_surface_render_output_surface sample_registry false 4 (some ⟨0, 0, 2, 2⟩) 5
        (some ⟨1, 1, 2, 2⟩) none none 0).map Prod.fst ≠ some VDP_STATUS_OK := by
  decide

/-- C4, amended: `vdp_output_surface_render_output_surface` between two
distinct registered surfaces, destination format B8G8R8A8, a populated source
buffer and both rectangles valid.  If the destination has no pixel buffer and
the allocation is refused, the call returns `Resources` and changes nothing.
Otherwise, with `w` and `h` the minima of the two rectangle widths and
heights, it returns `OK`, and afterwards the destination handle resolves to
the same context with `data_clear` cleared and a buffer of `width * height`
cells in which cell `(dy0 + i, dx0 + j)` equals source cell
`(sy0 + i, sx0 + j)` for `i < h`, `j < w`, while every other cell keeps its
previous value: zero when the buffer was absent or `data_clear` was set.
Every other handle, the source included, resolves as before. -/
theorem render_output_surface_copy (ht : Registry) (calloc_ok : Bool) (dst_handle src_handle : Nat)
    (out inp : output_surface_ctx_t) (drect srect : VdpRect) (in_buf : List Nat)
    (colors : Option VdpColor) (blend_state : Option Nat) (flags : Nat)
    (hdst : handle_get ht dst_handle = some (Object.output_surface out))
    (hsrc : handle_get ht src_handle = some (Object.output_surface inp))
    (hne : src_handle ≠ dst_handle)
    (hok_out : surface_ok out) (hok_in : surface_ok inp)
    (hfmt : out.rgba_format = VDP_RGBA_FORMAT_B8G8R8A8)
    (hin : inp.data = some in_buf)
    (hdrect : drect.x0 ≤ drect.x1 ∧ drect.y0 ≤ drect.y1 ∧ drect.x1 < out.width ∧
      drect.y1 < out.height)
    (hsrect : srect.x0 ≤ srect.x1 ∧ srect.y0 ≤ srect.y1 ∧ srect.x1 < inp.width ∧
      srect.y1 < inp.height) :
    (out.data = none ∧ calloc_ok = false →
      vdp_output_surface_render_output_surface ht calloc_ok dst_handle (some drect) src_handle
          (some srect) colors blend_state flags = some (VDP_STATUS_RESOURCES, ht)) ∧
    (¬ (out.data = none ∧ calloc_ok = false) →
      ∃ (ht1 : Registry) (buf : List Nat),
        vdp_output_surface_render_output_surface ht calloc_ok dst_handle (some drect) src_handle
            (some srect) colors blend_state flags = some (VDP_STATUS_OK, ht1) ∧
        handle_get ht1 dst_handle =
          some (Object.output_surface { out with data := some buf, data_clear := 0 }) ∧
        (∀ h, h ≠ dst_handle → handle_get ht1 h = handle_get ht h) ∧
        buf.length = out.width * out.height ∧
        (∀ i, i < min (drect.y1 - drect.y0) (srect.y1 - srect.y0) →
          ∀ j, j < min (drect.x1 - drect.x0) (srect.x1 - srect.x0) →
            ∃ v, in_buf[(srect.y0 + i) * inp.width + (srect.x0 + j)]? = some v ∧
              buf[(drect.y0 + i) * out.width + (drect.x0 + j)]? = some v) ∧
        (∀ k, (∀ i, i < min (drect.y1 - drect.y0) (srect.y1 - srect.y0) →
            ∀ j, j < min (drect.x1 - drect.x0) (srect.x1 - srect.x0) →
              k ≠ (drect.y0 + i) * out.width + (drect.x0 + j)) →
          buf[k]? =
            (if out.data_clear = 0 then
              out.data.getD (List.replicate (out.width * out.height) 0)
             else List.replicate (out.width * out.height) 0)[k]?)) := by
  constructor
  · intro hrefused
    obtain ⟨hd, hc⟩ := hrefused
    obtain ⟨hdx, hdy, hdx1, hdy1⟩ := hdrect
    obtain ⟨hsx, hsy, hsx1, hsy1⟩ := hsrect
    have hvd : valid_rect drect out = true := by simp [valid_rect, hdx, hdy, hdx1, hdy1]
    have hvs : valid_rect srect inp = true := by simp [valid_rect, hsx, hsy, hsx1, hsy1]
    have hclr : clear_if_flagged out.data out.data_clear out.width out.height = some none := by
      rw [hd]
      rfl
    have ha : alloc_if_absent calloc_ok none out.width out.height = none := by
      rw [hc]
      exact alloc_if_absent_refused _ _
    unfold vdp_output_surface_render_output_surface
    simp only [hdst, hsrc, handle_get_ne_invalid hsrc, hvd, hvs, hfmt, hin, hclr, ha, if_false,
      ne_eq, not_true_eq_false, Bool.true_eq_false]
  · intro hgranted
    have halloc : out.data = none → calloc_ok = true := by
      intro hd
      cases hc : calloc_ok
      · exact absurd ⟨hd, hc⟩ hgranted
      · rfl
    obtain ⟨buf, h1, h2, h3, h4⟩ :=
      render_output_surface_copy_run ht calloc_ok dst_handle src_handle out inp drect srect
        in_buf colors blend_state flags hdst hsrc hne hok_out hok_in hfmt hin halloc hdrect
        hsrect
    exact ⟨_, buf, h1, handle_get_set_self _ hdst,
      fun h hne1 => handle_get_set_other ht h dst_handle _ hne1 (handle_get_ne_zero hdst), h2,
      h3, h4⟩

/-- C4, amended, at a concrete input: a 2 by 2 destination rectangle and a 1
by 1 source rectangle, allocation granted.  The call returns `OK`, handle 4
then resolves to the surface whose cell `(0, 0)` holds source cell `(1, 1)`,
and the source handle 5 resolves as before. -/
theorem render_output_surface_copy_witness :
    (vdp_output_surface_render_output_surface sample_registry true 4 (some ⟨0, 0, 2, 2⟩) 5
        (some ⟨1, 1, 2, 2⟩) none none 0).map (fun r => (r.1, handle_get r.2 4, handle_get r.2 5)) =
      some (VDP_STATUS_OK,
        some (Object.output_surface
          { sample_surface with data := some [5, 0, 0, 0, 0, 0, 0, 0, 0], data_clear := 0 }),
        some (Object.output_surface sample_source_surface)) ∧
    (sample_surface.data = none ∧ true = false →
      vdp_output_surface_render_output_surface sample_registry true 4 (some (⟨0, 0, 2, 2⟩ : VdpRect)) 5
          (some (⟨1, 1, 2, 2⟩ : VdpRect)) none none 0 = some (VDP_STATUS_RESOURCES, sample_registry)) ∧
    (¬ (sample_surface.data = none ∧ true = false) →
      ∃ (ht1 : Registry) (buf : List Nat),
        vdp_output_surface_render_output_surface sample_registry true 4 (some (⟨0, 0, 2, 2⟩ : VdpRect)) 5
            (some (⟨1, 1, 2, 2⟩ : VdpRect)) none none 0 = some (VDP_STATUS_OK, ht1) ∧
        handle_get ht1 4 =
          some (Object.output_surface { sample_surface with data := some buf, data_clear := 0 }) ∧
        (∀ h, h ≠ 4 → handle_get ht1 h = handle_get sample_registry h) ∧
        buf.length = sample_surface.width * sample_surface.height ∧
        (∀ i, i < min ((⟨0, 0, 2, 2⟩ : VdpRect).y1 - (⟨0, 0, 2, 2⟩ : VdpRect).y0) ((⟨1, 1, 2, 2⟩ : VdpRect).y1 - (⟨1, 1, 2, 2⟩ : VdpRect).y0) →
          ∀ j, j < min ((⟨0, 0, 2, 2⟩ : VdpRect).x1 - (⟨0, 0, 2, 2⟩ : VdpRect).x0) ((⟨1, 1, 2, 2⟩ : VdpRect).x1 - (⟨1, 1, 2, 2⟩ : VdpRect).x0) →
            ∃ v, [1, 2, 3, 4, 5, 6, 7, 8, 9][((⟨1, 1, 2, 2⟩ : VdpRect).y0 + i) * sample_source_surface.width + ((⟨1, 1, 2, 2⟩ : VdpRect).x0 + j)]? = some v ∧
              buf[((⟨0, 0, 2, 2⟩ : VdpRect).y0 + i) * sample_surface.width + ((⟨0, 0, 2, 2⟩ : VdpRect).x0 + j)]? = some v) ∧
        (∀ k, (∀ i, i < min ((⟨0, 0, 2, 2⟩ : VdpRect).y1 - (⟨0, 0, 2, 2⟩ : VdpRect).y0) ((⟨1, 1, 2, 2⟩ : VdpRect).y1 - (⟨1, 1, 2, 2⟩ : VdpRect).y0) →
            ∀ j, j < min ((⟨0, 0, 2, 2⟩ : VdpRect).x1 - (⟨0, 0, 2, 2⟩ : VdpRect).x0) ((⟨1, 1, 2, 2⟩ : VdpRect).x1 - (⟨1, 1, 2, 2⟩ : VdpRect).x0) →
              k ≠ ((⟨0, 0, 2, 2⟩ : VdpRect).y0 + i) * sample_surface.width + ((⟨0, 0, 2, 2⟩ : VdpRect).x0 + j)) →
          buf[k]? =
            (if sample_surface.data_clear = 0 then
              sample_surface.data.getD (List.replicate (sample_surface.width * sample_surface.height) 0)
             else List.replicate (sample_surface.width * sample_surface.height) 0)[k]?)) :=
  ⟨by decide,
    render_output_surface_copy sample_registry true 4 5 sample_surface sample_source_surface
      ⟨0, 0, 2, 2⟩ ⟨1, 1, 2, 2⟩ [1, 2, 3, 4, 5, 6, 7, 8, 9] none none 0 (by decide) (by decide)
      (by decide) sample_surface_ok sample_source_surface_ok (by decide) rfl
      (by decide) (by decide)⟩

end VdpauSunxi
